import Mathlib

/-!
Verification of the AnyExamAI backend generation/validation core.

This file gives a shallow embedding, in Lean 4, of the parts of the
AnyExamAI backend (an IELTS test generation and evaluation service) that
the specification's testable claims are about:

* a model of Python/JSON values (`JValue`) together with the Python
  operations the services use on them (dict get/set, `len`, `==`, `str`,
  truthiness, iteration);
* a model of `json.loads` as used by `BaseIELTSService.extract_json_from_response`
  (src/services/base.py), and of that extraction routine's five fallback
  strategies;
* the per-test-type schema validators, post-processors and retry
  orchestrators of `reading_service.py`, `listening_service.py`,
  `writing_service.py` and `writing_evaluation_service.py`;
* the fixed listening audio-block table of `schemas/listening.py` and the
  transcript splitting / audio block construction of the listening service;
* the pydantic `WritingEvaluation` output model of
  `schemas/writing_evaluation.py` (field constraints and the
  `validate_band_increment` rounding validator).

External effects (the Gemini model call, edge-tts audio synthesis,
`asyncio.sleep`) are modelled as oracles / trace events: orchestrators take
the sequence of model responses as a function argument and record an event
trace (model calls, sleeps, attempts).  Machine floats are modelled by `ℚ`:
every numeric comparison and rounding step the claims touch is exact at the
values involved (`round(v * 2) / 2` on a binary float agrees with
round-half-to-even on the rational it denotes, since multiplication by 2 and
division of a small integer by 2 are exact in binary floating point).
-/

namespace AnyExam

/-! ## Python / JSON values

`JValue` models the Python values that flow through the services: the
result of `json.loads` plus the values the services themselves construct.
Numbers carry their exact rational value and an `isFloat` tag (Python
distinguishes `40` from `40.0` by type although they compare equal);
`nan` / `inf` model the nonfinite float constants that `json.loads`
accepts (`NaN`, `Infinity`, `-Infinity`).  Objects are insertion-ordered
key/value lists, as Python dicts are. -/

inductive JValue where
  | null
  | bool (b : Bool)
  | num (v : ℚ) (isFloat : Bool)
  | nan
  | inf (neg : Bool)
  | str (s : String)
  | arr (items : List JValue)
  | obj (entries : List (String × JValue))

/-- Python dict insertion: overwrite the value in place if the key exists
(keeping its position, as CPython dicts do), else append. -/
def dictSet (es : List (String × JValue)) (k : String) (v : JValue) :
    List (String × JValue) :=
  if es.any (fun e => e.1 == k) then
    es.map (fun e => if e.1 == k then (k, v) else e)
  else es ++ [(k, v)]

/-- Python dict lookup (`d.get(k)` without default → `Option`). -/
def dictGet (es : List (String × JValue)) (k : String) : Option JValue :=
  (es.find? (fun e => e.1 == k)).map (·.2)

/-- `d.get(k, default)`. -/
def dictGetD (es : List (String × JValue)) (k : String) (d : JValue) : JValue :=
  (dictGet es k).getD d

/-- `k in d` for a dict. -/
def dictHas (es : List (String × JValue)) (k : String) : Bool :=
  es.any (fun e => e.1 == k)

/-- `data.get(k)` on a `JValue` known to be an object; `none` otherwise
(the services only call `.get` on parsed dicts). -/
def jGet (v : JValue) (k : String) : Option JValue :=
  match v with
  | .obj es => dictGet es k
  | _ => none

/-- `data.get(k, default)` on an object value. -/
def jGetD (v : JValue) (k : String) (d : JValue) : JValue :=
  match v with
  | .obj es => dictGetD es k d
  | _ => d

/-- `k in data` on an object value. -/
def jHas (v : JValue) (k : String) : Bool :=
  match v with
  | .obj es => dictHas es k
  | _ => false

/-- `data[k] = v` on an object value (identity on non-objects; the
services assign only into dicts on the modelled paths). -/
def jSet (v : JValue) (k : String) (x : JValue) : JValue :=
  match v with
  | .obj es => .obj (dictSet es k x)
  | _ => v

/-- The numeric value a `JValue` compares as under Python `==`
(`True == 1`, `1 == 1.0`); `none` for non-numerics and `nan`. -/
def numView : JValue → Option ℚ
  | .bool b => some (if b then 1 else 0)
  | .num v _ => some v
  | _ => none

mutual
/-- Python `==` on values (`nan` compares unequal to everything, numbers
and booleans compare by value across types, dicts compare as unordered
key→value maps — entry order is irrelevant but our dicts keep first-write
order exactly as CPython does, so ordered comparison of normalised dicts
is used here; the services never compare dicts that differ only in
insertion order). -/
def pyEq : JValue → JValue → Bool
  | .null, .null => true
  | .str a, .str b => a == b
  | .inf a, .inf b => a == b
  | .arr a, .arr b => pyEqList a b
  | .obj a, .obj b => pyEqEntries a b
  | a, b =>
    match numView a, numView b with
    | some x, some y => x == y
    | _, _ => false

def pyEqList : List JValue → List JValue → Bool
  | [], [] => true
  | a :: as, b :: bs => pyEq a b && pyEqList as bs
  | _, _ => false

def pyEqEntries : List (String × JValue) → List (String × JValue) → Bool
  | [], [] => true
  | (k, a) :: as, (k', b) :: bs => k == k' && pyEq a b && pyEqEntries as bs
  | _, _ => false
end

/-- Python truthiness (`if x:`). -/
def pyTruthy : JValue → Bool
  | .null => false
  | .bool b => b
  | .num v _ => v != 0
  | .nan => true
  | .inf _ => true
  | .str s => !s.data.isEmpty
  | .arr xs => xs.length != 0
  | .obj es => es.length != 0

/-! ## Python exceptions

The exception taxonomy of `core/exceptions.py`, restricted to the fields
the services read.  `SchemaValidationError.details` is a dict; we keep the
dict shapes actually raised.  Generic runtime errors raised by the Python
interpreter itself (`KeyError`, `TypeError`, `AttributeError` on
unexpectedly-shaped data) are modelled by `runtime` with a tag — the
orchestrators catch them with a bare `except Exception`, so only the fact
that they are not `SchemaValidationError` is observable. -/

inductive SVDetails where
  /-- `details={"errors": errors}` (and for the writing validator also
  `"warnings"`). -/
  | errors (errs : List String) (warns : List String)
  /-- `details={"valid_bands": ...}` / `{"valid_modules": ...}`. -/
  | validValues (key : String) (vals : List String)
  /-- `details={"all_errors": ..., "last_errors": ...}` raised on retry
  exhaustion. -/
  | aggregated (allErrors : List String) (lastErrors : List String)
  /-- writing-evaluation output validation:
  `details={"errors": error_details, "raw_data": data}` where each entry
  is a `{field, message, type}` dict; we keep the field paths. -/
  | evalErrors (fields : List String) (rawData : JValue)

/-- `exc.details.get('errors', [])`. -/
def SVDetails.getErrors : SVDetails → List String
  | .errors e _ => e
  | _ => []

inductive PyExn where
  | schemaValidation (message : String) (details : SVDetails)
  | jsonParse (message : String) (responsePreview : String)
  | geminiAPI (message : String)
  | runtime (tag : String)

/-- `str(exc)`: `IELTSAPIException.__init__` passes `self.message` (which
already carries the class prefix) to `Exception.__init__`. -/
def PyExn.toStr : PyExn → String
  | .schemaValidation m _ => m
  | .jsonParse m _ => m
  | .geminiAPI m => m
  | .runtime t => t

def PyExn.isSchemaValidation : PyExn → Bool
  | .schemaValidation _ _ => true
  | _ => false

/-! ## Python string helpers -/

/-- Python `str.strip()` whitespace (ASCII part; the service strings are
ASCII). -/
def pyIsSpace (c : Char) : Bool :=
  c == '\t' || c == '\n' || c == '\x0b' || c == '\x0c' || c == '\r' || c == ' '

/-- Tail-recursive list length.  (`List.length`’s recursion is not
tail-recursive; when definitions are evaluated by the kernel inside
proofs on multi-kilobyte inputs that recursion depth matters, so the
embedding uses this accumulator form — extensionally the same
function.) -/
def listLenAux : List Char → Nat → Nat
  | [], acc => acc
  | _ :: cs, acc => listLenAux cs (acc + 1)

def listLen (cs : List Char) : Nat := listLenAux cs 0

def strLen (s : String) : Nat := listLen s.data

/-- Drop trailing whitespace, producing the output incrementally (no
`reverse`, so a consumer forcing the head only pays for the local
whitespace run — again extensionally the two-`reverse` form). -/
def dropTrailingWs : List Char → List Char
  | [] => []
  | c :: cs =>
    if pyIsSpace c then
      match dropTrailingWs cs with
      | [] => []
      | r => c :: r
    else c :: dropTrailingWs cs

def stripChars (cs : List Char) : List Char :=
  dropTrailingWs (cs.dropWhile pyIsSpace)

/-- Python `s.strip()`. -/
def pyStrip (s : String) : String := ⟨stripChars s.data⟩

/-- Python `s.split()` (no argument): split on whitespace runs, dropping
empty pieces. -/
def pySplitWsAux : List Char → List Char → List String
  | [], acc => if acc.isEmpty then [] else [⟨acc.reverse⟩]
  | c :: cs, acc =>
    if pyIsSpace c then
      if acc.isEmpty then pySplitWsAux cs []
      else ⟨acc.reverse⟩ :: pySplitWsAux cs []
    else pySplitWsAux cs (c :: acc)

def pySplitWs (s : String) : List String := pySplitWsAux s.data []

/-- `len(text.strip().split())` — the word counters of the services. -/
def pyWordCount (s : String) : Nat :=
  (pySplitWs s).foldl (fun n _ => n + 1) 0

/-- Python `s.split("\n")` (always at least one piece). -/
def pySplitNlAux : List Char → List Char → List String
  | [], acc => [⟨acc.reverse⟩]
  | c :: cs, acc =>
    if c == '\n' then ⟨acc.reverse⟩ :: pySplitNlAux cs []
    else pySplitNlAux cs (c :: acc)

def pySplitNl (s : String) : List String := pySplitNlAux s.data []

/-- Render an integer-valued rational the way Python `str()` renders the
int (used for `str(question_number)`; the generated data uses integer
question numbers — non-integer floats would render through Python float
repr, which the claims never exercise and which we render via the
rational's own representation). -/
def pyStrOfRat (v : ℚ) (isFloat : Bool) : String :=
  if v.den == 1 then
    (if isFloat then toString v.num ++ ".0" else toString v.num)
  else toString v.num ++ "/" ++ toString v.den

/-- Python `str(x)` for the value shapes that reach `str()` in the
services (scalars; containers go through `repr`, approximated). -/
def pyStr : JValue → String
  | .null => "None"
  | .bool b => if b then "True" else "False"
  | .num v f => pyStrOfRat v f
  | .nan => "nan"
  | .inf neg => if neg then "-inf" else "inf"
  | .str s => s
  | .arr _ => "[...]"
  | .obj _ => "{...}"

/-- Python `repr` of a list of strings, as interpolated by
`f"Attempt {n}: {errors}"` (quote-escaping inside the items is not
modelled; the validator messages contain no quotes). -/
def pyReprStrList (xs : List String) : String :=
  "[" ++ String.intercalate ", " (xs.map (fun s => "'" ++ s ++ "'")) ++ "]"

/-! ## `json.loads` model

A model of CPython's `json.loads` in its default configuration: JSON
values plus the `NaN`/`Infinity`/`-Infinity` constants; strict strings
(unescaped control characters rejected); numbers with no leading zeros;
duplicate object keys resolved last-wins in place.  One deliberate
deviation: `\uXXXX` escapes denoting lone UTF-16 surrogates (which CPython
keeps as lone surrogates in the `str`) are rejected here, since Lean
strings hold scalar values only; none of the repository's data paths
produce them. -/

def jsonWs (c : Char) : Bool :=
  c == '\t' || c == '\r' || c == '\n' || c == ' '

def skipJsonWs (cs : List Char) : List Char := cs.dropWhile jsonWs

def isDigit (c : Char) : Bool := c ≤ '9' && '0' ≤ c

def digitVal (c : Char) : Nat := c.toNat - 48

def hexVal (c : Char) : Option Nat :=
  if isDigit c then some (digitVal c)
  else if c ≤ 'f' && 'a' ≤ c then some (c.toNat - 87)
  else if c ≤ 'F' && 'A' ≤ c then some (c.toNat - 55)
  else none

/-- Parse a maximal digit run, returning its value and length. -/
def parseDigits : List Char → Nat → Nat → (Nat × Nat × List Char)
  | c :: cs, acc, len =>
    if isDigit c then parseDigits cs (acc * 10 + digitVal c) (len + 1)
    else (acc, len, c :: cs)
  | [], acc, len => (acc, len, [])

/-- JSON number grammar: `-? (0 | [1-9][0-9]*) (\. [0-9]+)? ([eE][+-]?[0-9]+)?`,
applied after the leading sign (if any) has been consumed.  Returns the
rational value, whether a fraction/exponent part was present (Python then
yields a `float`), and the rest. -/
def parseNumBody (cs : List Char) : Option (ℚ × Bool × List Char) :=
  match cs with
  | c :: _ =>
    if !isDigit c then none
    else
      let (ip, ilen, rest) := parseDigits cs 0 0
      -- no leading zeros: "0" alone is fine, "01" is not
      if ilen > 1 && cs.headD ' ' == '0' then none
      else
        let (frac, fdigits, rest2) :=
          match rest with
          | '.' :: ds =>
            let (fv, flen, r) := parseDigits ds 0 0
            if flen == 0 then (none, 0, rest) else (some fv, flen, r)
          | _ => (none, 0, rest)
        match rest with
        | '.' :: ds =>
          -- a dot must be followed by at least one digit
          if (parseDigits ds 0 0).2.1 == 0 then none
          else
            let base : ℚ := (ip : ℚ) + (frac.getD 0 : ℚ) / ((10 : ℚ) ^ fdigits)
            parseExpPart base true rest2
        | _ => parseExpPart (ip : ℚ) false rest2
  | [] => none
where
  parseExpPart (base : ℚ) (isFloat : Bool) (cs : List Char) :
      Option (ℚ × Bool × List Char) :=
    match cs with
    | e :: rest =>
      if e == 'e' || e == 'E' then
        let (neg, rest2) :=
          match rest with
          | '+' :: r => (false, r)
          | '-' :: r => (true, r)
          | r => (false, r)
        let (ev, elen, rest3) := parseDigits rest2 0 0
        if elen == 0 then none
        else
          let scaled := if neg then base / ((10 : ℚ) ^ ev) else base * ((10 : ℚ) ^ ev)
          some (scaled, true, rest3)
      else some (base, isFloat, e :: rest)
    | [] => some (base, isFloat, [])

/-- Parse the body of a JSON string (the opening quote already consumed).
Returns the decoded characters and the rest after the closing quote. -/
def parseStringBody : List Char → Option (List Char × List Char)
  | [] => none
  | c :: cs =>
    if c == '"' then some ([], cs)
    else if c == '\\' then
      match cs with
      | [] => none
      | e :: cs2 =>
        let simple : Option Char :=
          if e == '"' then some '"'
          else if e == '\\' then some '\\'
          else if e == '/' then some '/'
          else if e == 'b' then some '\x08'
          else if e == 'f' then some '\x0c'
          else if e == 'n' then some '\n'
          else if e == 'r' then some '\r'
          else if e == 't' then some '\t'
          else none
        match simple with
        | some d =>
          match parseStringBody cs2 with
          | some (tl, rest) => some (d :: tl, rest)
          | none => none
        | none =>
          if e == 'u' then
            match cs2 with
            | h1 :: h2 :: h3 :: h4 :: cs3 =>
              match hexVal h1, hexVal h2, hexVal h3, hexVal h4 with
              | some a, some b, some c', some d =>
                let u := ((a * 16 + b) * 16 + c') * 16 + d
                if 0xD800 ≤ u && u ≤ 0xDBFF then
                  -- high surrogate: must be followed by a low surrogate escape
                  match cs3 with
                  | '\\' :: 'u' :: g1 :: g2 :: g3 :: g4 :: cs4 =>
                    match hexVal g1, hexVal g2, hexVal g3, hexVal g4 with
                    | some a', some b', some c'', some d' =>
                      let l := ((a' * 16 + b') * 16 + c'') * 16 + d'
                      if 0xDC00 ≤ l && l ≤ 0xDFFF then
                        let cp := 0x10000 + (u - 0xD800) * 0x400 + (l - 0xDC00)
                        if cp.isValidChar then
                          match parseStringBody cs4 with
                          | some (tl, rest) => some (Char.ofNat cp :: tl, rest)
                          | none => none
                        else none
                      else none
                    | _, _, _, _ => none
                  | _ => none
                else if 0xDC00 ≤ u && u ≤ 0xDFFF then none
                else
                  if u.isValidChar then
                    match parseStringBody cs3 with
                    | some (tl, rest) => some (Char.ofNat u :: tl, rest)
                    | none => none
                  else none
              | _, _, _, _ => none
            | _ => none
          else none
    else if c.toNat < 0x20 then none  -- strict mode: raw control chars rejected
    else
      match parseStringBody cs with
      | some (tl, rest) => some (c :: tl, rest)
      | none => none

mutual
/-- One JSON value at the current position (leading whitespace already
skipped by the caller). -/
def parseValue (fuel : Nat) (cs : List Char) : Option (JValue × List Char) :=
  match fuel with
  | 0 => none
  | fuel + 1 =>
    match cs with
    | [] => none
    | c :: rest =>
      if c == '{' then parseObjRest fuel (skipJsonWs rest) []
      else if c == '[' then parseArrRest fuel (skipJsonWs rest) []
      else if c == '"' then
        match parseStringBody rest with
        | some (chars, rest2) => some (.str ⟨chars⟩, rest2)
        | none => none
      else if c == 'n' then
        match rest with
        | 'u' :: 'l' :: 'l' :: r => some (.null, r)
        | _ => none
      else if c == 't' then
        match rest with
        | 'r' :: 'u' :: 'e' :: r => some (.bool true, r)
        | _ => none
      else if c == 'f' then
        match rest with
        | 'a' :: 'l' :: 's' :: 'e' :: r => some (.bool false, r)
        | _ => none
      else if c == 'N' then
        match rest with
        | 'a' :: 'N' :: r => some (.nan, r)
        | _ => none
      else if c == 'I' then
        match rest with
        | 'n' :: 'f' :: 'i' :: 'n' :: 'i' :: 't' :: 'y' :: r => some (.inf false, r)
        | _ => none
      else if c == '-' then
        match rest with
        | 'I' :: 'n' :: 'f' :: 'i' :: 'n' :: 'i' :: 't' :: 'y' :: r =>
          some (.inf true, r)
        | _ =>
          match parseNumBody rest with
          | some (v, isF, r) => some (.num (-v) isF, r)
          | none => none
      else
        match parseNumBody cs with
        | some (v, isF, r) => some (.num v isF, r)
        | none => none

/-- Object members after `{` (whitespace skipped); `acc` holds the
entries parsed so far. -/
def parseObjRest (fuel : Nat) (cs : List Char) (acc : List (String × JValue)) :
    Option (JValue × List Char) :=
  match fuel with
  | 0 => none
  | fuel + 1 =>
    match cs with
    | '}' :: rest => if acc.isEmpty then some (.obj [], rest) else none
    | '"' :: rest =>
      match parseStringBody rest with
      | some (kchars, rest2) =>
        match skipJsonWs rest2 with
        | ':' :: rest3 =>
          match parseValue fuel (skipJsonWs rest3) with
          | some (v, rest4) =>
            let acc' := dictSet acc ⟨kchars⟩ v
            match skipJsonWs rest4 with
            | ',' :: rest5 => parseMembers fuel (skipJsonWs rest5) acc'
            | '}' :: rest5 => some (.obj acc', rest5)
            | _ => none
          | none => none
        | _ => none
      | none => none
    | _ => none

/-- Members after a `,` (a key is mandatory here). -/
def parseMembers (fuel : Nat) (cs : List Char) (acc : List (String × JValue)) :
    Option (JValue × List Char) :=
  match fuel with
  | 0 => none
  | fuel + 1 =>
    match cs with
    | '"' :: rest =>
      match parseStringBody rest with
      | some (kchars, rest2) =>
        match skipJsonWs rest2 with
        | ':' :: rest3 =>
          match parseValue fuel (skipJsonWs rest3) with
          | some (v, rest4) =>
            let acc' := dictSet acc ⟨kchars⟩ v
            match skipJsonWs rest4 with
            | ',' :: rest5 => parseMembers fuel (skipJsonWs rest5) acc'
            | '}' :: rest5 => some (.obj acc', rest5)
            | _ => none
          | none => none
        | _ => none
      | none => none
    | _ => none

/-- Array items after `[` (whitespace skipped). -/
def parseArrRest (fuel : Nat) (cs : List Char) (acc : List JValue) :
    Option (JValue × List Char) :=
  match fuel with
  | 0 => none
  | fuel + 1 =>
    match cs with
    | ']' :: rest => if acc.isEmpty then some (.arr [], rest) else none
    | _ =>
      match parseValue fuel cs with
      | some (v, rest) =>
        match skipJsonWs rest with
        | ',' :: rest2 => parseArrRest fuel (skipJsonWs rest2) (acc ++ [v])
        | ']' :: rest2 => some (.arr (acc ++ [v]), rest2)
        | _ => none
      | none => none
end

/-- The recursion fuel of the parser.  Each unit covers one parser
event, and a text of `n` characters needs at most `n + 1`; a fixed
bound far above any model response keeps the parser's behaviour equal
to the unbounded recursion of CPython's parser without computing the
input's length. -/
def parseFuel : Nat := 1000000000

/-- `json.loads(s)`: parse one value, allow surrounding whitespace,
reject trailing data. -/
def jsonLoads (s : String) : Option JValue :=
  let cs := skipJsonWs s.data
  match parseValue parseFuel cs with
  | some (v, rest) => if (skipJsonWs rest).isEmpty then some v else none
  | none => none

/-! ## `BaseIELTSService.extract_json_from_response` (src/services/base.py)

The five fallback strategies, in source order:
1. if the stripped text starts with a fence, remove the opening
   ```` ```json ```` / ```` ``` ```` marker (`re.sub(r'^```(?:json)?\s*\n?', ...)`)
   and the closing marker (`re.sub(r'\n?```\s*$', ...)`);
2. `json.loads` on the cleaned text;
3. brace-depth scan from the first `{` of the cleaned text (counting every
   `{`/`}` regardless of quoting), parse the spanned substring;
4. `re.search(r'```(?:json)?\s*([\s\S]*?)\s*```', response_text)` on the
   original text, parse the captured group;
5. `re.search(r'\{[\s\S]*\}', response_text)`, parse the (greedy) span;
then raise `JSONParseError`. -/

def listStartsWith (cs pre : List Char) : Bool :=
  cs.take pre.length == pre

/-- Removal of `^```(?:json)?\s*\n?` (only called when the text starts
with a fence; `\s*` greedily absorbs the optional newline; `\s` in Python
`re` is the `pyIsSpace` set for ASCII text). -/
def stripOpenFence (cs : List Char) : List Char :=
  let cs := cs.drop 3
  let cs := if listStartsWith cs "json".data then cs.drop 4 else cs
  cs.dropWhile pyIsSpace

/-- Does `\n?```\s*$` match at offset `i`?  (`$` matches at the end, and
`\s*` can always reach it when only whitespace remains.) -/
def closeFenceAt (cs : List Char) (i : Nat) : Bool :=
  let tail := cs.drop i
  (match tail with
   | '\n' :: r => listStartsWith r "```".data && (r.drop 3).all pyIsSpace
   | _ => false)
  || (listStartsWith tail "```".data && (tail.drop 3).all pyIsSpace)

/-- `re.sub(r'\n?```\s*$', '', t)`: the leftmost match (greedy `\s*`
extends it to the end of the string), removed. -/
def stripCloseFence (cs : List Char) : List Char :=
  match (List.range (listLen cs + 1)).find? (closeFenceAt cs) with
  | some i => cs.take i
  | none => cs

/-- The cleaned text of strategy 1. -/
def cleanFences (cs : List Char) : List Char :=
  let cleaned := stripChars cs
  if listStartsWith cleaned "```".data then
    stripCloseFence (stripOpenFence cleaned)
  else cleaned

/-- Strategy 3 scan: depth counting from the first `{`; returns the offset
(from the start of the scan) of the brace closing depth 0, if reached. -/
def braceScan : List Char → Int → Nat → Option Nat
  | [], _, _ => none
  | c :: cs, depth, i =>
    if c == '{' then braceScan cs (depth + 1) (i + 1)
    else if c == '}' then
      if depth - 1 == 0 then some i else braceScan cs (depth - 1) (i + 1)
    else braceScan cs depth (i + 1)

/-- Strategy 3: the `{ ... }` substring found by brace counting, if the
scan closes. -/
def braceSpan (cs : List Char) : Option (List Char) :=
  match cs.findIdx? (· == '{') with
  | none => none
  | some start =>
    match braceScan (cs.drop start) 0 0 with
    | some endRel => some ((cs.drop start).take (endRel + 1))
    | none => none

/-- Is there a `\s*`-then-` ``` ` continuation at offset `m` (the tail of
the fenced-block regex after the lazy group)? -/
def closeTickFrom (cs : List Char) (m : Nat) : Bool :=
  let w := ((cs.drop m).takeWhile pyIsSpace).length
  (List.range (w + 1)).any fun d =>
    listStartsWith (cs.drop (m + d)) "```".data

/-- Backtracking match of `` ```(?:json)?\s*([\s\S]*?)\s*``` `` at start
offset `i`: `(?:json)?` prefers to consume, the first `\s*` is greedy
(longest first), the lazy group is shortest first.  Returns the captured
group. -/
def fenceMatchAt (cs : List Char) (i : Nat) : Option (List Char) :=
  if listStartsWith (cs.drop i) "```".data then
    let j := i + 3
    let starts :=
      (if listStartsWith (cs.drop j) "json".data then [j + 4] else []) ++ [j]
    starts.findSome? fun j1 =>
      let w := ((cs.drop j1).takeWhile pyIsSpace).length
      (List.range (w + 1)).findSome? fun d =>
        let k := j1 + w - d
        (List.range (listLen cs + 1 - k)).findSome? fun e =>
          let m := k + e
          if closeTickFrom cs m then some ((cs.drop k).take (m - k)) else none
  else none

/-- Strategy 4: `re.search` of the fenced-block pattern over the original
text (leftmost match), returning the captured interior. -/
def fenceSearch (cs : List Char) : Option (List Char) :=
  (List.range (listLen cs + 1)).findSome? (fenceMatchAt cs)

/-- Strategy 5: `re.search(r'\{[\s\S]*\}', text)` — first `{` through the
last `}`, when the latter comes after the former. -/
def greedyBraceSpan (cs : List Char) : Option (List Char) :=
  match cs.findIdx? (· == '{') with
  | none => none
  | some i0 =>
    match cs.reverse.findIdx? (· == '}') with
    | none => none
    | some rj =>
      let j := listLen cs - 1 - rj
      if i0 < j then some ((cs.drop i0).take (j + 1 - i0)) else none

/-- `BaseIELTSService.extract_json_from_response`. -/
def extractJsonFromResponse (responseText : String) : Except PyExn JValue :=
  let cs := responseText.data
  let cleaned := cleanFences cs
  match jsonLoads ⟨cleaned⟩ with
  | some v => .ok v
  | none =>
    match braceSpan cleaned with
    | some span =>
      match jsonLoads ⟨span⟩ with
      | some v => .ok v
      | none => extractTail cs responseText
    | none => extractTail cs responseText
where
  /-- Strategies 4 and 5 and the final raise, shared by the fall-through
  paths of strategy 3. -/
  extractTail (cs : List Char) (responseText : String) : Except PyExn JValue :=
    match fenceSearch cs with
    | some interior =>
      match jsonLoads ⟨interior⟩ with
      | some v => .ok v
      | none => extractLast cs responseText
    | none => extractLast cs responseText
  extractLast (cs : List Char) (responseText : String) : Except PyExn JValue :=
    match greedyBraceSpan cs with
    | some span =>
      match jsonLoads ⟨span⟩ with
      | some v => .ok v
      | none => raiseParse responseText
    | none => raiseParse responseText
  raiseParse (responseText : String) : Except PyExn JValue :=
    .error (.jsonParse "JSON Parse Error: Could not extract valid JSON from API response"
      ⟨responseText.data.take 500⟩)

/-! ## Python operational helpers

The services run plain Python operations on parsed JSON of arbitrary
shape; on unexpected shapes those operations raise interpreter errors
(`TypeError` / `AttributeError` / `KeyError`) which the orchestrators
catch with a bare `except Exception`.  We model each operation as a
partial function into `Except PyExn`, tagging interpreter errors with
`runtime` (their exact message is never observed by the services beyond
`str(exc)` in a diagnostic entry; we use the exception class name as the
tag). -/

/-- Python `len(v)` (`str`/`list`/`dict` are sized; others raise). -/
def pyLen : JValue → Except PyExn Nat
  | .str s => .ok (strLen s)
  | .arr xs => .ok xs.length
  | .obj es => .ok es.length
  | _ => .error (.runtime "TypeError")

/-- Python iteration `for x in v` (a `str` yields its characters, a dict
its keys). -/
def pyIter : JValue → Except PyExn (List JValue)
  | .str s => .ok (s.data.map fun c => .str ⟨[c]⟩)
  | .arr xs => .ok xs
  | .obj es => .ok (es.map fun e => .str e.1)
  | _ => .error (.runtime "TypeError")

/-- Python `v.get(k, default)` (only dicts have `.get`). -/
def pyGetAttr (v : JValue) (k : String) (d : JValue) : Except PyExn JValue :=
  match v with
  | .obj es => .ok (dictGetD es k d)
  | _ => .error (.runtime "AttributeError")

/-- Python `v[k]` for a string key (raises `KeyError` when absent,
`TypeError` on non-dicts). -/
def pyIndex (v : JValue) (k : String) : Except PyExn JValue :=
  match v with
  | .obj es =>
    match dictGet es k with
    | some x => .ok x
    | none => .error (.runtime "KeyError")
  | _ => .error (.runtime "TypeError")

/-- Python `v[k] = x` (only modelled for dicts; the services assign into
parsed dicts, raising `TypeError` otherwise). -/
def pySetItem (v : JValue) (k : String) (x : JValue) : Except PyExn JValue :=
  match v with
  | .obj es => .ok (.obj (dictSet es k x))
  | _ => .error (.runtime "TypeError")

/-- Python substring test used by `k in s` on strings. -/
def strContains (s sub : List Char) : Bool :=
  (List.range (listLen s + 1)).any fun i => listStartsWith (s.drop i) sub

/-- Python `k in v` for a string `k` (substring test on strings, key
test on dicts, `==`-membership on lists). -/
def pyContains (k : String) (v : JValue) : Except PyExn Bool :=
  match v with
  | .str s => .ok (strContains s.data k.data)
  | .obj es => .ok (dictHas es k)
  | .arr xs => .ok (xs.any (pyEq (.str k)))
  | _ => .error (.runtime "TypeError")

/-- Python dict keyed by arbitrary values (`q_by_num`,
`section_halves`): association list with `==`-equality of keys and
update-in-place insertion. -/
def pyDictSet (es : List (JValue × JValue)) (k : JValue) (v : JValue) :
    List (JValue × JValue) :=
  if es.any (fun e => pyEq e.1 k) then
    es.map (fun e => if pyEq e.1 k then (e.1, v) else e)
  else es ++ [(k, v)]

def pyDictGet (es : List (JValue × JValue)) (k : JValue) : Option JValue :=
  (es.find? (fun e => pyEq e.1 k)).map (·.2)

/-- `f"{x}"` on a value produced by `.get` (an `Option`): Python renders
the missing case as `None`. -/
def fmtOpt (o : Option JValue) : String := pyStr (o.getD .null)

/-! ## Orchestration events

External-effect trace recorded by the orchestrator models: one
`attemptStart` per retry-loop iteration, one `sleep` per backoff delay,
one `modelCall` per Gemini invocation in the single-pass services. -/

inductive Event where
  | attemptStart (n : Nat)
  | sleep (seconds : Nat)
  | modelCall

def countAttempts (evs : List Event) : Nat :=
  (evs.filter fun e => match e with | .attemptStart _ => true | _ => false).length

def countSleeps (evs : List Event) : Nat :=
  (evs.filter fun e => match e with | .sleep _ => true | _ => false).length

def countModelCalls (evs : List Event) : Nat :=
  (evs.filter fun e => match e with | .modelCall => true | _ => false).length

/-! ## Listening schema constants (src/schemas/listening.py) -/

/-- `VOICES`: the fixed accent → edge-tts voice mapping, in dict order. -/
def VOICES : List (String × String) :=
  [("uk", "en-GB-SoniaNeural"),
   ("us", "en-US-JennyNeural"),
   ("au", "en-AU-NatashaNeural"),
   ("nz", "en-NZ-MollyNeural"),
   ("ca", "en-CA-ClaraNeural")]

def VOICE_RATE : String := "-5%"

/-- One entry of `AUDIO_BLOCK_RANGES` (`{"block": …, "section": …,
"q_start": …, "q_end": …}`). -/
structure BlockRange where
  block : Nat
  sectionNum : Nat
  qStart : Nat
  qEnd : Nat
deriving DecidableEq

/-- `AUDIO_BLOCK_RANGES`: the fixed IELTS computer-based 8-block table. -/
def AUDIO_BLOCK_RANGES : List BlockRange :=
  [⟨1, 1, 1, 4⟩, ⟨2, 1, 5, 10⟩,
   ⟨3, 2, 11, 16⟩, ⟨4, 2, 17, 20⟩,
   ⟨5, 3, 21, 24⟩, ⟨6, 3, 25, 30⟩,
   ⟨7, 4, 31, 35⟩, ⟨8, 4, 36, 40⟩]

/-! ## Listening service (src/services/listening_service.py) -/

def MIN_TRANSCRIPT_LENGTH : Nat := 500
def MAX_RETRIES : Nat := 3
def RETRY_DELAY_SECONDS : Nat := 2

def VALID_BANDS : List String :=
  ["5.0", "5.5", "6.0", "6.5", "7.0", "7.5", "8.0", "8.5", "9.0"]

/-- The top-level missing-key errors of
`ListeningTestService.validate_schema` (`for key in (...): if key not in
data`). -/
def listeningMissingKeyErrors (data : JValue) : Except PyExn (List String) :=
  ["test_type", "sections", "total_questions",
   "audio_duration_minutes", "test_metadata"].foldlM
    (fun acc key => do
      if !(← pyContains key data) then
        pure (acc ++ [s!"Missing required key: {key}"])
      else pure acc) []

/-- The per-section checks of `ListeningTestService.validate_schema`:
missing keys, question count, transcript length; returns the errors and
the section's `len(questions)` contribution to `total_q`. -/
def listeningSectionErrors (idx : Nat) (sec : JValue) :
    Except PyExn (List String × Nat) := do
  let missing ← ["section_number", "section_type", "audio_transcript",
                 "questions", "section_question_range", "section_instructions",
                 "context", "speakers", "difficulty_band",
                 "audio_duration_seconds"].foldlM
    (fun acc k => do
      if !(← pyContains k sec) then
        pure (acc ++ [s!"Section {idx} missing key: {k}"])
      else pure acc) []
  let qs ← pyGetAttr sec "questions" (.arr [])
  let nQs ← pyLen qs
  let qErr := if nQs != 10 then
      [s!"Section {idx} must have 10 questions, got {nQs}"] else []
  let transcript ← pyGetAttr sec "audio_transcript" (.str "")
  let tLen ← pyLen transcript
  let tErr := if tLen < MIN_TRANSCRIPT_LENGTH then
      [s!"Section {idx} transcript too short ({tLen} chars, minimum {MIN_TRANSCRIPT_LENGTH})"]
    else []
  return (missing ++ qErr ++ tErr, nQs)

/-- `for idx, sec in enumerate(sections, 1): …` of the listening
validator (errors concatenated in iteration order, question counts
summed). -/
def listeningSectionsFold : Nat → List JValue → Except PyExn (List String × Nat)
  | _, [] => .ok ([], 0)
  | idx, sec :: rest => do
    let (es, n) ← listeningSectionErrors idx sec
    let (es', n') ← listeningSectionsFold (idx + 1) rest
    return (es ++ es', n + n')

/-- The error list accumulated by `ListeningTestService.validate_schema`
(checks in source order — sequential appends to `errors` become
concatenation of the per-check lists; the surrounding `Except` carries
interpreter errors raised by `len`/`.get`/`in` on unexpectedly shaped
data, in the same evaluation order as the source). -/
def listeningSchemaErrors (data : JValue) : Except PyExn (List String) := do
  let eMissing ← listeningMissingKeyErrors data
  let tq ← pyGetAttr data "total_questions" .null
  let tqs := fmtOpt (jGet data "total_questions")
  let eTq := if !pyEq tq (.num 40 false) then
      [s!"total_questions must be 40, got {tqs}"] else []
  let sections ← pyGetAttr data "sections" (.arr [])
  let nSections ← pyLen sections
  let eCount := if nSections != 4 then
      [s!"Must have exactly 4 sections, got {nSections}"] else []
  let (eSections, totalQ) ← listeningSectionsFold 1 (← pyIter sections)
  let eTotal := if totalQ != 40 then
      [s!"Total questions across sections: {totalQ}, expected 40"] else []
  let meta ← pyGetAttr data "test_metadata" (.obj [])
  let sv ← pyGetAttr meta "schema_version" .null
  let svs := fmtOpt (jGet meta "schema_version")
  let eSv := if !pyEq sv (.str "2.1") then [s!"Wrong schema_version: {svs}"] else []
  let db ← pyGetAttr meta "difficulty_band" .null
  let dbs := fmtOpt (jGet meta "difficulty_band")
  let eDb := if !(VALID_BANDS.any fun b => pyEq db (.str b)) then
      [s!"Invalid difficulty_band: {dbs}"] else []
  return eMissing ++ eTq ++ eCount ++ eSections ++ eTotal ++ eSv ++ eDb

/-- `ListeningTestService.validate_schema`: raises
`SchemaValidationError` listing every accumulated violation, else
returns `True`. -/
def listeningValidateSchema (data : JValue) : Except PyExn Bool := do
  let errors ← listeningSchemaErrors data
  if !errors.isEmpty then
    throw (.schemaValidation "Schema Validation Error: Schema validation failed"
      (.errors errors []))
  return true

/-- The speaker-label pattern `^[A-Z][A-Z\s\.\-']+:` used by
`_split_transcript` (`re.match`, so anchored at the line start; the
class run must be followed immediately by `:`). -/
def isSpeakerClass (c : Char) : Bool :=
  ('A' ≤ c && c ≤ 'Z') || pyIsSpace c || c == '.' || c == '-' || c == '\''

def speakerMatch (line : String) : Bool :=
  match line.data with
  | [] => false
  | c :: rest =>
    let run := rest.takeWhile isSpeakerClass
    ('A' ≤ c && c ≤ 'Z') && run.length ≥ 1 &&
      (rest.drop run.length).headD ' ' == ':'

/-- The candidate-line search of `_split_transcript`: for offsets
`0, 1, …, len(lines)//4 - 1`, try `target+offset` then `target-offset`;
take the first in-range speaker-label line, else the target itself. -/
def findSplitLine (lines : List String) (target : Nat) : Nat :=
  let n := lines.length
  let okAt : Nat → Bool := fun c =>
    decide (0 < c) && decide (c < n) &&
      speakerMatch ((lines.drop c).headD "")
  match (List.range (n / 4)).findSome? (fun off =>
      -- `target - offset` is in Python a possibly negative int; it passes
      -- the `0 < candidate` guard only when `offset < target`, which
      -- coincides with the truncated subtraction check below
      (if okAt (target + off) then some (target + off)
       else if okAt (target - off) then some (target - off)
       else none : Option Nat)) with
  | some best => best
  | none => target

/-- `ListeningTestService._split_transcript` with the default
`ratio = 0.5` (the only ratio used; `int(len(lines) * 0.5)` is exact
floor division by 2). -/
def splitTranscript (transcript : String) : String × String :=
  let lines := pySplitNl (pyStrip transcript)
  let target := lines.length / 2
  let best := findSplitLine lines target
  let partA := pyStrip (String.intercalate "\n" (lines.take best))
  let partB := pyStrip (String.intercalate "\n" (lines.drop best))
  if partA.data.isEmpty || partB.data.isEmpty then
    let mid := strLen transcript / 2
    (pyStrip ⟨transcript.data.take mid⟩, pyStrip ⟨transcript.data.drop mid⟩)
  else (partA, partB)

/-- One block of the final loop of
`ListeningTestService._build_audio_blocks`: the half of the block's
section transcript picked by block parity, the questions whose
`question_number` falls in the fixed range, and the literal
block/section/range fields from the table entry. -/
def mkAudioBlock (qByNum : List (JValue × JValue))
    (sectionHalves : List (JValue × (String × String))) (bdef : BlockRange) :
    JValue :=
  let halves := ((sectionHalves.find?
      (fun e => pyEq e.1 (.num bdef.sectionNum false))).map (·.2)).getD ("", "")
  let chunk := if bdef.block % 2 == 1 then halves.1 else halves.2
  let blockQs := ((List.range (bdef.qEnd + 1 - bdef.qStart)).map
      (fun i => (bdef.qStart + i : Nat))).filterMap fun n =>
    pyDictGet qByNum (.num n false)
  .obj
    [("block_number", .num bdef.block false),
     ("section_number", .num bdef.sectionNum false),
     ("question_range", .obj [("min", .num bdef.qStart false),
                              ("max", .num bdef.qEnd false)]),
     ("questions", .arr blockQs),
     ("transcript_chunk", .str chunk),
     ("audio_assets", .obj [])]

/-- `ListeningTestService._build_audio_blocks`: index questions by
`question_number`, split each section transcript, then emit one block
per `AUDIO_BLOCK_RANGES` entry.  Fails (with the interpreter error the
orchestrator catches) when a question lacks `question_number`, a section
lacks `section_number`, or a transcript is not a string. -/
def buildAudioBlocks (sections : JValue) : Except PyExn (List JValue) := do
  let secList ← pyIter sections
  let mut qByNum : List (JValue × JValue) := []
  for sec in secList do
    for q in (← pyIter (← pyGetAttr sec "questions" (.arr []))) do
      let qn ← pyIndex q "question_number"
      qByNum := pyDictSet qByNum qn q
  let mut sectionHalves : List (JValue × (String × String)) := []
  for sec in secList do
    let sn ← pyIndex sec "section_number"
    let transcript ← pyGetAttr sec "audio_transcript" (.str "")
    let t ← match transcript with
            | .str t => pure t
            | _ => throw (.runtime "AttributeError")
    sectionHalves :=
      if sectionHalves.any (fun e => pyEq e.1 sn) then
        sectionHalves.map (fun e => if pyEq e.1 sn then (e.1, splitTranscript t) else e)
      else sectionHalves ++ [(sn, splitTranscript t)]
  return AUDIO_BLOCK_RANGES.map (mkAudioBlock qByNum sectionHalves)

/-- `ListeningTestService._render_audio_blocks`: for each block with a
non-empty `transcript_chunk`, one asset per accent of `VOICES`, with the
final per-asset status supplied by the external edge-tts outcome oracle
`render` (the code first records `pending` and then overwrites each
status with the gathered task result; only the net effect is modelled —
the success/failure of one asset never influences another). -/
def renderAudioBlocks (blocks : List JValue) (testId : String)
    (render : Nat → String → String) : List JValue :=
  blocks.mapIdx fun idx block =>
    let chunk := jGetD block "transcript_chunk" (.str "")
    if !pyTruthy chunk then block
    else
      let bn := pyStr (jGetD block "block_number" .null)
      let assets := VOICES.map fun (accent, voice) =>
        (accent, JValue.obj
          [("voice", .str voice),
           ("rate", .str VOICE_RATE),
           ("file", .str s!"audio/listening/{testId}/block{bn}/{accent}.mp3"),
           ("status", .str (render idx accent))])
      jSet block "audio_assets" (.obj assets)

/-- `ListeningTestService._fix_common_issues` (the `generated_at`
timestamp is the `nowIso` argument). -/
def listeningFixCommonIssues (data : JValue) (testId : String)
    (nowIso : String) : Except PyExn JValue := do
  let data ← pySetItem data "test_id" (.str testId)
  let meta0 := if jHas data "test_metadata" then jGetD data "test_metadata" .null
               else .obj []
  let meta1 ← match meta0 with
    | .obj es =>
      let es := if dictHas es "schema_version" then es
                else dictSet es "schema_version" (.str "2.1")
      let es := if dictHas es "generated_at" then es
                else dictSet es "generated_at" (.str nowIso)
      let es := if dictHas es "delivery_format" then es
                else dictSet es "delivery_format" (.str "computer-based")
      let es := if dictHas es "difficulty_band" then es
                else dictSet es "difficulty_band" (.str "6.5")
      pure (JValue.obj es)
    | _ => throw (.runtime "AttributeError")
  let data ← pySetItem data "test_metadata" meta1
  let data := if jHas data "playback_rules" then data else
    jSet data "playback_rules" (.obj
      [("play_once_only", .bool true), ("no_rewind", .bool true),
       ("no_pause_during_section", .bool true), ("notes_allowed", .bool true)])
  let data := if jHas data "test_flow" then data else
    jSet data "test_flow" (.obj
      [("section_sequence", .arr [.num 1 false, .num 2 false, .num 3 false, .num 4 false]),
       ("timing_defaults", .obj
         [("pre_read_seconds", .num 30 false),
          ("end_section_check_seconds", .num 30 false),
          ("between_sections_pause_seconds", .num 30 false)])])
  return data

/-- `ListeningTestService._build_answer_key`. -/
def buildAnswerKey (sections : JValue) : Except PyExn JValue := do
  let mut key : List (String × JValue) := []
  for sec in (← pyIter sections) do
    for q in (← pyIter (← pyGetAttr sec "questions" (.arr []))) do
      let qnv ← pyGetAttr q "question_number" .null
      let qn := pyStr qnv
      let answer ← pyGetAttr q "answer" .null
      let alts ← pyGetAttr q "alternative_answers" (.arr [])
      if pyTruthy alts then
        match answer with
        | .str a =>
          match alts with
          | .arr items => key := dictSet key qn (.arr (.str a :: items))
          | _ => throw (.runtime "TypeError")
        | _ => key := dictSet key qn answer
      else
        key := dictSet key qn answer
  return .obj key

/-! ## The retry loop shared in shape by the reading and listening
orchestrators

Both `ReadingTestService.generate_test` and
`ListeningTestService.generate_test` run the same skeleton: up to
`MAX_RETRIES` (3) attempts; a `SchemaValidationError` or any other
exception is recorded (`last_error`, plus one `all_errors` entry per
failed attempt) and, when attempts remain, a fixed
`RETRY_DELAY_SECONDS` (2) sleep precedes the next attempt; on
exhaustion, a `SchemaValidationError` last error is re-raised wrapped
with the aggregated list, any other last error is re-raised unchanged.
(The reading loop sleeps inside each `except` arm before `continue`,
the listening loop sleeps after the `try` block — the traces coincide.)
The per-attempt body (`att`) covers everything inside the `try`:
model call, extraction, fix-ups, validation and (listening) audio
assembly. -/

/-- One `all_errors` entry: `f"Attempt {n}: {exc.details.get('errors', [])}"`
for a `SchemaValidationError`, `f"Attempt {n}: {exc}"` otherwise. -/
def attemptErrorEntry (n : Nat) (e : PyExn) : String :=
  match e with
  | .schemaValidation _ d => s!"Attempt {n}: " ++ pyReprStrList d.getErrors
  | e => s!"Attempt {n}: " ++ e.toStr

/-- The terminal re-raise after the loop exhausts its attempts. -/
def exhaustedError (wrapMsg : String) (lastError : Option PyExn)
    (allErrors : List String) : PyExn :=
  match lastError with
  | some (.schemaValidation _ d) =>
    .schemaValidation wrapMsg (.aggregated allErrors d.getErrors)
  | some e => e
  | none => .runtime "TypeError"  -- `raise None`; unreachable for MAX_RETRIES ≥ 1

def retryLoopGo (att : Nat → Except PyExn JValue) (maxR delay : Nat)
    (wrapMsg : String) :
    Nat → Nat → Option PyExn → List String → List Event →
    (Except PyExn JValue × List Event)
  | 0, _, lastError, allErrors, events =>
    (.error (exhaustedError wrapMsg lastError allErrors), events)
  | fuel + 1, k, _lastError, allErrors, events =>
    let events := events ++ [.attemptStart k]
    match att k with
    | .ok v => (.ok v, events)
    | .error e =>
      let allErrors := allErrors ++ [attemptErrorEntry k e]
      let events := if k < maxR then events ++ [.sleep delay] else events
      retryLoopGo att maxR delay wrapMsg fuel (k + 1) (some e) allErrors events

/-- `for attempt in range(1, maxR + 1): …` with the recording/backoff
behaviour above. -/
def retryLoop (att : Nat → Except PyExn JValue) (maxR delay : Nat)
    (wrapMsg : String) : Except PyExn JValue × List Event :=
  retryLoopGo att maxR delay wrapMsg maxR 1 none [] []

/-- Everything inside the `try` of one listening attempt: model call
(`responses k`, an oracle which may itself raise, e.g. a
`GeminiAPIError`), JSON extraction, fix-ups, validation, audio-block
construction, rendering (outcome oracle `render k`), answer key. -/
def listeningAttempt (testId : String) (nowIso : String)
    (responses : Nat → Except PyExn String)
    (render : Nat → Nat → String → String) (k : Nat) :
    Except PyExn JValue := do
  let responseText ← responses k
  let parsed ← extractJsonFromResponse responseText
  let fixed ← listeningFixCommonIssues parsed testId nowIso
  let _ ← listeningValidateSchema fixed
  let sections := jGetD fixed "sections" (.arr [])
  let blocks ← buildAudioBlocks sections
  let blocks := renderAudioBlocks blocks testId (render k)
  let withBlocks ← pySetItem fixed "audio_blocks" (.arr blocks)
  let key ← buildAnswerKey sections
  pySetItem withBlocks "answer_key" key

/-- `ListeningTestService.generate_test`: difficulty guard, then the
retry loop over `listeningAttempt`. -/
def listeningGenerateTest (difficulty : String) (testId : String)
    (nowIso : String) (responses : Nat → Except PyExn String)
    (render : Nat → Nat → String → String) :
    Except PyExn JValue × List Event :=
  if !(VALID_BANDS.any fun b => b == difficulty) then
    (.error (.schemaValidation
      (s!"Schema Validation Error: Invalid difficulty band: {difficulty}")
      (.validValues "valid_bands" VALID_BANDS)), [])
  else
    retryLoop (listeningAttempt testId nowIso responses render)
      MAX_RETRIES RETRY_DELAY_SECONDS
      s!"Schema Validation Error: Validation failed after {MAX_RETRIES} attempts"

/-! ## Reading service (src/services/reading_service.py) -/

/-- Python `repr` of a set of strings, as interpolated into the
"missing keys" messages (CPython set iteration order is
hash-dependent; we render in the source literal's order — the services
never inspect the order). -/
def pySetRepr (xs : List String) : String :=
  "\x7b" ++ String.intercalate ", " (xs.map (fun s => "'" ++ s ++ "'")) ++ "\x7d"

/-- Extended numeric view for Python comparison operators (`bool` counts
as 0/1; `nan` compares false against everything; non-numerics raise
`TypeError`). -/
inductive PyNum where
  | fin (q : ℚ)
  | nan
  | inf (neg : Bool)

def asPyNum : JValue → Option PyNum
  | .bool b => some (.fin (if b then 1 else 0))
  | .num v _ => some (.fin v)
  | .nan => some .nan
  | .inf n => some (.inf n)
  | _ => none

def pyNumLE : PyNum → PyNum → Bool
  | .nan, _ => false
  | _, .nan => false
  | .inf n, .inf m => n == m || n
  | .inf n, .fin _ => n
  | .fin _, .inf n => !n
  | .fin a, .fin b => decide (a ≤ b)

/-- Python chained `lo <= v <= hi` (short-circuiting left to right). -/
def pyBetween (lo : ℚ) (v : JValue) (hi : ℚ) : Except PyExn Bool :=
  match asPyNum v with
  | some n =>
    if pyNumLE (.fin lo) n then .ok (pyNumLE n (.fin hi)) else .ok false
  | none => .error (.runtime "TypeError")

/-- `set(data.keys())` (raises `AttributeError` on non-dicts). -/
def pyKeys : JValue → Except PyExn (List String)
  | .obj es => .ok (es.map (·.1))
  | _ => .error (.runtime "AttributeError")

/-- The per-question check of `ReadingTestService.validate_schema`
(required keys `question_number`/`type`/`answer`). -/
def readingQuestionErrors (q : JValue) : Except PyExn (List String) := do
  let reqQKeys := ["question_number", "type", "answer"]
  let qkeys ← pyKeys q
  let missingQ := reqQKeys.filter (fun k => !qkeys.contains k)
  let missingQR := pySetRepr missingQ
  let qns := pyStr (jGetD q "question_number" (.str "?"))
  return if !missingQ.isEmpty then
    [s!"Question {qns} missing keys: {missingQR}"] else []

def readingQuestionsFold : List JValue → Except PyExn (List String)
  | [] => .ok []
  | q :: rest => do
    let es ← readingQuestionErrors q
    let es' ← readingQuestionsFold rest
    return es ++ es'

/-- The per-passage checks of `ReadingTestService.validate_schema`;
returns the errors and the passage's `len(questions)` contribution to
`total_q`. -/
def readingPassageErrors (i : Nat) (passage : JValue) :
    Except PyExn (List String × Nat) := do
  let reqPKeys := ["passage_number", "heading", "text", "word_count", "questions"]
  let pkeys ← pyKeys passage
  let missingP := reqPKeys.filter (fun k => !pkeys.contains k)
  let missingPR := pySetRepr missingP
  let eMissing := if !missingP.isEmpty then
      [s!"Passage {i} missing keys: {missingPR}"] else []
  let pn ← pyGetAttr passage "passage_number" .null
  let pns := fmtOpt (jGet passage "passage_number")
  let eNum := if !pyEq pn (.num i false) then
      [s!"Passage number mismatch: expected {i}, got {pns}"] else []
  let wc ← pyGetAttr passage "word_count" (.num 0 false)
  let wcs := pyStr wc
  let eWc := if !(← pyBetween 500 wc 1200) then
      [s!"Passage {i} word count {wcs} outside acceptable range (500-1200)"]
    else []
  let questions ← pyGetAttr passage "questions" (.arr [])
  let nQs ← pyLen questions
  let eQs ← readingQuestionsFold (← pyIter questions)
  return (eMissing ++ eNum ++ eWc ++ eQs, nQs)

def readingPassagesFold : Nat → List JValue → Except PyExn (List String × Nat)
  | _, [] => .ok ([], 0)
  | i, p :: rest => do
    let (es, n) ← readingPassageErrors i p
    let (es', n') ← readingPassagesFold (i + 1) rest
    return (es ++ es', n + n')

/-- The `topics` metadata check (`"topics" not in metadata or not
isinstance(..., list) or len(...) != 3`, short-circuiting). -/
def readingTopicsOk (metadata : JValue) : Except PyExn Bool := do
  if !(← pyContains "topics" metadata) then pure false
  else
    match (← pyGetAttr metadata "topics" .null) with
    | .arr ts => pure (decide (ts.length = 3))
    | _ => pure false

/-- The error list accumulated by `ReadingTestService.validate_schema`,
in source order (sequential appends become concatenation of the
per-check lists). -/
def readingSchemaErrors (data : JValue) : Except PyExn (List String) := do
  let requiredKeys := ["test_type", "passages", "total_questions",
                       "total_duration_minutes", "test_metadata"]
  let keys ← pyKeys data
  let missing := requiredKeys.filter (fun k => !keys.contains k)
  let missingR := pySetRepr missing
  let eMissing := if !missing.isEmpty then
      [s!"Missing required keys: {missingR}"] else []
  let tt ← pyGetAttr data "test_type" .null
  let tts := fmtOpt (jGet data "test_type")
  let eTt := if !(["IELTS Academic", "IELTS General Training"].any
      fun s => pyEq tt (.str s)) then
      [s!"Invalid test_type: {tts}"] else []
  let tq ← pyGetAttr data "total_questions" .null
  let tqs := fmtOpt (jGet data "total_questions")
  let eTq := if !pyEq tq (.num 40 false) then
      [s!"Invalid total_questions: must be 40, got {tqs}"] else []
  let td ← pyGetAttr data "total_duration_minutes" .null
  let tds := fmtOpt (jGet data "total_duration_minutes")
  let eTd := if !pyEq td (.num 60 false) then
      [s!"Invalid duration: must be 60 minutes, got {tds}"] else []
  let passages ← pyGetAttr data "passages" (.arr [])
  let nPassages ← pyLen passages
  let eCount := if nPassages != 3 then
      [s!"Must have exactly 3 passages, got {nPassages}"] else []
  let (ePassages, totalQ) ← readingPassagesFold 1 (← pyIter passages)
  let eTotal := if totalQ != 40 then
      [s!"Total questions across passages: {totalQ}, expected 40"] else []
  let metadata ← pyGetAttr data "test_metadata" (.obj [])
  let sv ← pyGetAttr metadata "schema_version" .null
  let svs := fmtOpt (jGet metadata "schema_version")
  let eSv := if !pyEq sv (.str "2.0") then
      [s!"Wrong schema version: {svs}"] else []
  let db ← pyGetAttr metadata "difficulty_band" .null
  let dbs := fmtOpt (jGet metadata "difficulty_band")
  let eDb := if !(VALID_BANDS.any fun b => pyEq db (.str b)) then
      [s!"Invalid difficulty_band: {dbs}"] else []
  let topicsOk ← readingTopicsOk metadata
  let eTopics := if !topicsOk then
      ["test_metadata must contain 'topics' array with exactly 3 topics"] else []
  let answerKey ← pyGetAttr data "answer_key" (.obj [])
  let nKey ← pyLen answerKey
  let eKey := if nKey != 40 then
      [s!"Answer key has {nKey} entries, expected 40"] else []
  return eMissing ++ eTt ++ eTq ++ eTd ++ eCount ++ ePassages ++ eTotal ++
    eSv ++ eDb ++ eTopics ++ eKey

/-- `ReadingTestService.validate_schema`. -/
def readingValidateSchema (data : JValue) : Except PyExn Bool := do
  let errors ← readingSchemaErrors data
  if !errors.isEmpty then
    throw (.schemaValidation "Schema Validation Error: Schema validation failed"
      (.errors errors []))
  return true

/-- `ReadingTestService._fix_common_issues`. -/
def readingFixCommonIssues (data : JValue) : Except PyExn JValue := do
  let passages ← pyGetAttr data "passages" (.arr [])
  let mut newPassages : List JValue := []
  for passage in (← pyIter passages) do
    let mut p := passage
    let hasWc ← pyContains "word_count" p
    let wc ← if hasWc then pyGetAttr p "word_count" (.num 0 false)
             else pure (.num 0 false)
    if !hasWc || pyEq wc (.num 0 false) then
      let text ← pyGetAttr p "text" (.str "")
      if pyTruthy text then
        match text with
        | .str t => p ← pySetItem p "word_count" (.num (pyWordCount t) false)
        | _ => throw (.runtime "AttributeError")
    if !(← pyContains "questions" p) then
      p ← pySetItem p "questions" (.arr [])
    newPassages := newPassages ++ [p]
  let data ← if jHas data "passages" then pySetItem data "passages" (.arr newPassages)
             else pure data
  let mut answerKey ← pyGetAttr data "answer_key" (.obj [])
  if (← pyLen answerKey) < 40 then
    for passage in newPassages do
      for q in (← pyIter (← pyGetAttr passage "questions" (.arr []))) do
        let qNumV ← pyGetAttr q "question_number" (.str "")
        let qNum := pyStr qNumV
        if qNum.length != 0 then
          if (← pyContains "answer" q) then
            answerKey ← pySetItem answerKey qNum (← pyIndex q "answer")
    return (← pySetItem data "answer_key" answerKey)
  return data

/-- `ReadingTestService._normalize_for_frontend`. -/
def readingNormalizeForFrontend (data : JValue) : Except PyExn JValue := do
  let passages ← pyGetAttr data "passages" (.arr [])
  let mut newPassages : List JValue := []
  for passage in (← pyIter passages) do
    let questions ← pyGetAttr passage "questions" (.arr [])
    let mut newQs : List JValue := []
    for q0 in (← pyIter questions) do
      let mut q := q0
      let _ ← pyGetAttr q "question_number" (.str "?")
      let qType ← pyGetAttr q "type" (.str "unknown")
      let mut anyText := false
      for key in ["question_text", "statement", "incomplete_sentence",
                  "summary_text", "passage_reference"] do
        if (← pyContains key q) then anyText := true
      if !anyText then
        if (← pyContains "text" q) then
          q ← pySetItem q "question_text" (← pyIndex q "text")
        else if (← pyContains "prompt" q) then
          q ← pySetItem q "question_text" (← pyIndex q "prompt")
      if ["matching_headings", "matching_features", "matching_information",
          "matching_sentence_endings"].any (fun s => pyEq qType (.str s)) then
        if (← pyContains "options" q) &&
            !pyTruthy (← pyGetAttr q "heading_options" .null) &&
            !pyTruthy (← pyGetAttr q "feature_options" .null) then
          if pyEq qType (.str "matching_headings") then
            q ← pySetItem q "heading_options" (← pyIndex q "options")
          else if pyEq qType (.str "matching_features") then
            q ← pySetItem q "feature_options" (← pyIndex q "options")
      if !(← pyContains "explanation" q) then
        q ← pySetItem q "explanation" (.str "Explanation not provided")
      if !(← pyContains "answer" q) then
        q ← pySetItem q "answer" (.str "")
      newQs := newQs ++ [q]
    let p ← if jHas passage "questions" then
              pySetItem passage "questions" (.arr newQs)
            else pure passage
    newPassages := newPassages ++ [p]
  if jHas data "passages" then pySetItem data "passages" (.arr newPassages)
  else pure data

/-- Everything inside the `try` of one reading attempt (the prompt text
is consumed only by the model, which is the oracle `responses`). -/
def readingAttempt (responses : Nat → Except PyExn String) (k : Nat) :
    Except PyExn JValue := do
  let responseText ← responses k
  let parsed ← extractJsonFromResponse responseText
  let fixed ← readingFixCommonIssues parsed
  let normalized ← readingNormalizeForFrontend fixed
  let _ ← readingValidateSchema normalized
  return normalized

/-- `ReadingTestService.generate_test`: difficulty guard (the
passage-difficulty progression feeds only the prompt), then the retry
loop over `readingAttempt`. -/
def readingGenerateTest (difficulty : String)
    (responses : Nat → Except PyExn String) :
    Except PyExn JValue × List Event :=
  if !(VALID_BANDS.any fun b => b == difficulty) then
    (.error (.schemaValidation
      (s!"Schema Validation Error: Invalid difficulty band: {difficulty}")
      (.validValues "valid_bands" VALID_BANDS)), [])
  else
    retryLoop (readingAttempt responses) MAX_RETRIES RETRY_DELAY_SECONDS
      s!"Schema Validation Error: Schema validation failed after {MAX_RETRIES} attempts"

/-! ## Writing service (src/services/writing_service.py) -/

def VALID_MODULES : List String := ["Academic", "General Training"]

/-- Python `v[i]` for an int index (list/str indexing; dicts raise
`KeyError` for an int key absent from a string-keyed JSON dict). -/
def pyIntIndex (v : JValue) (i : Nat) : Except PyExn JValue :=
  match v with
  | .arr xs =>
    match xs.drop i with
    | x :: _ => .ok x
    | [] => .error (.runtime "IndexError")
  | .str s =>
    match s.data.drop i with
    | c :: _ => .ok (.str ⟨[c]⟩)
    | [] => .error (.runtime "IndexError")
  | .obj _ => .error (.runtime "KeyError")
  | _ => .error (.runtime "TypeError")

/-- Python `s.startswith(prefix)` (`AttributeError` on non-strings). -/
def pyStartsWith (v : JValue) (pre : String) : Except PyExn Bool :=
  match v with
  | .str s => .ok (listStartsWith s.data pre.data)
  | _ => .error (.runtime "AttributeError")

/-- The per-sample warnings of the Task 1 `sample_responses` loop
(`band_score` presence, `response_text` presence and length ≥ 50). -/
def writingSampleWarnings (si : Nat) (sample : JValue) :
    Except PyExn (List String) := do
  let wBand ← do
    if !(← pyContains "band_score" sample) then
      pure [s!"Task 1 sample {si} missing band_score"]
    else pure []
  let wText ← do
    if !(← pyContains "response_text" sample) then
      pure [s!"Task 1 sample {si} missing response_text"]
    else
      let rt ← pyGetAttr sample "response_text" (.str "")
      if (← pyLen rt) < 50 then
        pure [s!"Task 1 sample {si} response is too short"]
      else pure []
  return wBand ++ wText

def writingSamplesFold : Nat → List JValue → Except PyExn (List String)
  | _, [] => .ok []
  | si, s :: rest => do
    let ws ← writingSampleWarnings si s
    let ws' ← writingSamplesFold (si + 1) rest
    return ws ++ ws'

/-- The task checks of `WritingTestService.validate_schema` performed
when `len(tasks) == 2` (errors, warnings). -/
def writingTaskFindings (tasks : JValue) (module : String) :
    Except PyExn (List String × List String) := do
  let task1 ← pyIntIndex tasks 0
  let eT1Num ← do
    if !pyEq (← pyGetAttr task1 "task_number" .null) (.num 1 false) then
      pure ["Task 1 number mismatch"]
    else pure []
  let mw1 ← pyGetAttr task1 "minimum_word_count" .null
  let mw1s := fmtOpt (jGet task1 "minimum_word_count")
  let eT1Mwc := if !pyEq mw1 (.num 150 false) then
      [s!"Task 1 minimum word count must be 150, got {mw1s}"] else []
  let wT1Weight ← do
    if !pyEq (← pyGetAttr task1 "assessment_weight" .null) (.str "33%") then
      pure ["Task 1 assessment weight should be 33%"]
    else pure []
  let task1Type ← pyGetAttr task1 "task_type" (.str "")
  let wT1Type ← do
    if module == "Academic" then
      if !(← pyStartsWith task1Type "Report_") then
        pure ["Academic Task 1 should be a Report type"]
      else pure []
    else if module == "General Training" then
      if !(← pyStartsWith task1Type "Letter_") then
        pure ["General Training Task 1 should be a Letter type"]
      else pure []
    else pure []
  let samples1 ← pyGetAttr task1 "sample_responses" (.arr [])
  let wSamples1 ← do
    if (← pyLen samples1) < 1 then
      pure ["Task 1 has no sample responses"]
    else writingSamplesFold 1 (← pyIter samples1)
  let task2 ← pyIntIndex tasks 1
  let eT2Num ← do
    if !pyEq (← pyGetAttr task2 "task_number" .null) (.num 2 false) then
      pure ["Task 2 number mismatch"]
    else pure []
  let mw2 ← pyGetAttr task2 "minimum_word_count" .null
  let mw2s := fmtOpt (jGet task2 "minimum_word_count")
  let eT2Mwc := if !pyEq mw2 (.num 250 false) then
      [s!"Task 2 minimum word count must be 250, got {mw2s}"] else []
  let wT2Weight ← do
    if !pyEq (← pyGetAttr task2 "assessment_weight" .null) (.str "67%") then
      pure ["Task 2 assessment weight should be 67%"]
    else pure []
  let task2Type ← pyGetAttr task2 "task_type" (.str "")
  let wT2Type ← do
    if !(← pyStartsWith task2Type "Essay_") then
      pure ["Task 2 should be an Essay type"]
    else pure []
  let samples2 ← pyGetAttr task2 "sample_responses" (.arr [])
  let wSamples2 ← do
    if (← pyLen samples2) < 1 then
      pure ["Task 2 has no sample responses"]
    else pure []
  return (eT1Num ++ eT1Mwc ++ eT2Num ++ eT2Mwc,
    wT1Weight ++ wT1Type ++ wSamples1 ++ wT2Weight ++ wT2Type ++ wSamples2)

/-- The `(errors, warnings)` pair accumulated by
`WritingTestService.validate_schema`, in source order (sequential
appends to the two lists become concatenation of the per-check
pieces). -/
def writingSchemaFindings (data : JValue) (module : String) :
    Except PyExn (List String × List String) := do
  let requiredKeys := ["test_name", "module", "total_time_minutes", "tasks",
                       "assessment", "test_metadata"]
  let keys ← pyKeys data
  let missing := requiredKeys.filter (fun k => !keys.contains k)
  let missingR := pySetRepr missing
  let eMissing := if !missing.isEmpty then
      [s!"Missing required keys: {missingR}"] else []
  let tn ← pyGetAttr data "test_name" .null
  let tns := fmtOpt (jGet data "test_name")
  let eName := if !pyEq tn (.str "IELTS Writing") then
      [s!"Invalid test_name: {tns}"] else []
  let md ← pyGetAttr data "module" .null
  let mds := fmtOpt (jGet data "module")
  let eModule := if !pyEq md (.str module) then
      [s!"Invalid module: expected {module}, got {mds}"] else []
  let tt ← pyGetAttr data "total_time_minutes" .null
  let tts := fmtOpt (jGet data "total_time_minutes")
  let eTime := if !pyEq tt (.num 60 false) then
      [s!"Invalid duration: must be 60 minutes, got {tts}"] else []
  let wSplit ← do
    if (← pyContains "recommended_time_split" data) then
      let timeSplit ← pyIndex data "recommended_time_split"
      let t1 ← pyGetAttr timeSplit "task_1_minutes" .null
      let t2 ← pyGetAttr timeSplit "task_2_minutes" .null
      if !pyEq t1 (.num 20 false) || !pyEq t2 (.num 40 false) then
        pure ["Non-standard time split recommended"]
      else pure []
    else pure []
  let tasks ← pyGetAttr data "tasks" (.arr [])
  let nTasks ← pyLen tasks
  let (eTasks, wTasks) ←
    if nTasks != 2 then
      pure ([s!"Must have exactly 2 tasks, got {nTasks}"], [])
    else writingTaskFindings tasks module
  let metadata ← pyGetAttr data "test_metadata" (.obj [])
  let sv ← pyGetAttr metadata "schema_version" .null
  let svs := fmtOpt (jGet metadata "schema_version")
  let eSv := if !pyEq sv (.str "3.0") then
      [s!"Wrong schema version: {svs}, expected 3.0"] else []
  let db ← pyGetAttr metadata "difficulty_band" .null
  let dbs := fmtOpt (jGet metadata "difficulty_band")
  let eDb := if !(VALID_BANDS.any fun b => pyEq db (.str b)) then
      [s!"Invalid difficulty_band: {dbs}"] else []
  let assessment ← pyGetAttr data "assessment" (.obj [])
  let eCrit ← do
    if !(← pyContains "criteria" assessment) then
      pure ["Assessment missing criteria"]
    else pure []
  let eScoring ← do
    if !(← pyContains "scoring_methodology" assessment) then
      pure ["Assessment missing scoring_methodology"]
    else pure []
  let eScale ← do
    if !(← pyContains "band_scale" assessment) then
      pure ["Assessment missing band_scale"]
    else pure []
  return (eMissing ++ eName ++ eModule ++ eTime ++ eTasks ++ eSv ++ eDb ++
    eCrit ++ eScoring ++ eScale,
    wSplit ++ wTasks)

/-- `WritingTestService.validate_schema`: errors block acceptance,
warnings are logged only. -/
def writingValidateSchema (data : JValue) (module : String) :
    Except PyExn Bool := do
  let (errors, warnings) ← writingSchemaFindings data module
  if !errors.isEmpty then
    throw (.schemaValidation "Schema Validation Error: Schema validation failed"
      (.errors errors warnings))
  return true

/-- `WritingTestService._normalize_for_frontend`. -/
def writingNormalizeForFrontend (data : JValue) : Except PyExn JValue := do
  let tasks ← pyGetAttr data "tasks" (.arr [])
  let mut newTasks : List JValue := []
  let mut taskIdx : Nat := 1
  for task0 in (← pyIter tasks) do
    let mut task := task0
    let taskNum ← pyGetAttr task "task_number" (.num taskIdx false)
    let taskType ← pyGetAttr task "task_type" (.str "unknown")
    if !(← pyContains "prompt" task) then
      task ← pySetItem task "prompt" (.obj [])
    let mut prompt ← pyIndex task "prompt"
    if !(← pyContains "task_instruction" prompt) then
      prompt ← pySetItem prompt "task_instruction"
        (← pyGetAttr task "instructions" (.str "Complete this task."))
    if !(← pyContains "context_information" prompt) then
      prompt ← pySetItem prompt "context_information"
        (← pyGetAttr task "task_context" (.str ""))
    if pyEq taskNum (.num 1 false) then
      if pyTruthy taskType then
        if (← pyStartsWith taskType "Report_") then
          if !(← pyContains "visual_data" prompt) then
            prompt ← pySetItem prompt "visual_data" (.obj
              [("chart_type", .str "Mixed Chart"),
               ("description_text",
                 ← pyGetAttr prompt "context_information" (.str "Describe the data shown.")),
               ("title", .str "Visual Data")])
    if pyEq taskNum (.num 1 false) then
      if pyTruthy taskType then
        if (← pyStartsWith taskType "Letter_") then
          if !(← pyContains "letter_context" prompt) then
            prompt ← pySetItem prompt "letter_context" (.obj
              [("situation",
                 ← pyGetAttr prompt "context_information" (.str "Write a letter.")),
               ("purpose", .str "General"),
               ("formality_level", .str "Formal")])
    let isTask2 := pyEq taskNum (.num 2 false)
    -- `task_num == 2 or (task_type and task_type.startswith("Essay_"))`
    -- short-circuits: the `startswith` call is reached only when the
    -- first disjunct is false and `task_type` is truthy
    let essayCond ←
      if isTask2 then pure true
      else if pyTruthy taskType then pyStartsWith taskType "Essay_"
      else pure false
    if essayCond then
      if !(← pyContains "essay_context" prompt) then
        let essayKind ←
          if pyTruthy taskType then
            match taskType with
            | .str t => pure (JValue.str (t.replace "Essay_" ""))
            | _ => throw (.runtime "AttributeError")
          else pure (JValue.str "Opinion")
        prompt ← pySetItem prompt "essay_context" (.obj
          [("topic", .str "Essay Topic"),
           ("essay_type", essayKind),
           ("question_prompt",
             ← pyGetAttr prompt "context_information" (.str "Write an essay."))])
    task ← pySetItem task "prompt" prompt
    if !(← pyContains "sample_responses" task) then
      task ← pySetItem task "sample_responses" (.arr [])
    newTasks := newTasks ++ [task]
    taskIdx := taskIdx + 1
  if jHas data "tasks" then pySetItem data "tasks" (.arr newTasks)
  else pure data

/-- `WritingTestService.generate_test`: module and difficulty guards,
then a single pass — prompt, one model call, extraction, normalisation,
validation.  There is no retry loop: any failure propagates
immediately. -/
def writingGenerateTest (module : String) (difficulty : String)
    (response : Except PyExn String) : Except PyExn JValue × List Event :=
  if !(VALID_MODULES.any fun m => m == module) then
    (.error (.schemaValidation
      (s!"Schema Validation Error: Invalid module: {module}")
      (.validValues "valid_modules" VALID_MODULES)), [])
  else if !(VALID_BANDS.any fun b => b == difficulty) then
    (.error (.schemaValidation
      (s!"Schema Validation Error: Invalid difficulty band: {difficulty}")
      (.validValues "valid_bands" VALID_BANDS)), [])
  else
    let result : Except PyExn JValue := do
      let responseText ← response
      let parsed ← extractJsonFromResponse responseText
      let normalized ← writingNormalizeForFrontend parsed
      let _ ← writingValidateSchema normalized module
      return normalized
    (result, [.modelCall])

/-! ## Pydantic `WritingEvaluation` model (src/schemas/writing_evaluation.py)

Field constraints in declaration order; validation collects one error
per failing field (`ValidationError.errors()`), modelled as the list of
failing field paths.  Lax-mode coercions relevant to JSON input are
modelled: `int`/`float` accept numbers (and numeric strings; an
integral float coerces to `int`), `bool` is not accepted for numeric
fields, strings are not coerced from non-strings.  The
`validate_band_increment` `@field_validator` runs *after* the core
`ge`/`le` checks and replaces an off-grid `overall_band` by
`round(v * 2) / 2` — CPython `round` is round-half-to-even. -/

/-- CPython `round(q)` (half to even).  The floor is written as
`q.num / q.den` (integer euclidean division, which agrees with `⌊q⌋`
since denominators are positive — `Rat.floor_def`) so that the function
evaluates inside proofs. -/
def pyRound (q : ℚ) : ℤ :=
  let f : ℤ := q.num / q.den
  let frac := q - f
  if frac < 1 / 2 then f
  else if frac > 1 / 2 then f + 1
  else if f % 2 = 0 then f else f + 1

/-- A Python `float(s)`-style numeric string (sign, digits with an
optional point, optional exponent; leading zeros allowed).  Used for
pydantic's lax numeric-string coercion.  The `inf`/`nan` spellings are
not modelled (an evaluation payload never carries them on the accepted
path: they would fail the `ge`/`le` bound checks anyway). -/
def pyDecimalOfChars : List Char → Option ℚ
  | cs =>
    let (neg, cs) := match cs with
      | '-' :: r => (true, r)
      | '+' :: r => (false, r)
      | r => (false, r)
    let (ip, ilen, cs) := parseDigits cs 0 0
    let (fv, flen, cs) :=
      match cs with
      | '.' :: r => parseDigits r 0 0
      | r => (0, 0, r)
    if ilen + flen == 0 then none
    else
      let base : ℚ := (ip : ℚ) + (fv : ℚ) / ((10 : ℚ) ^ flen)
      let withExp : Option ℚ :=
        match cs with
        | [] => some base
        | e :: r =>
          if e == 'e' || e == 'E' then
            let (eneg, r2) := match r with
              | '+' :: r2 => (false, r2)
              | '-' :: r2 => (true, r2)
              | r2 => (false, r2)
            let (ev, elen, r3) := parseDigits r2 0 0
            if elen == 0 || !r3.isEmpty then none
            else some (if eneg then base / ((10 : ℚ) ^ ev) else base * ((10 : ℚ) ^ ev))
          else none
      withExp.map (fun q => if neg then -q else q)

def pyDecimal (s : String) : Option ℚ :=
  match pyDecimalOfChars (stripChars s.data) with
  | some q => some q
  | none =>
    -- "1." and ".5" styles are covered above; anything else fails
    none

/-- Pydantic lax coercion to `float`. -/
def coerceFloat : JValue → Option ℚ
  | .num v _ => some v
  | .str s => pyDecimal s
  | _ => none

/-- Pydantic lax coercion to `int` (floats only when integral). -/
def coerceInt : JValue → Option ℤ
  | .num v _ => if v.den == 1 then some v.num else none
  | .str s =>
    match pyDecimal s with
    | some q => if q.den == 1 then some q.num else none
    | none => none
  | _ => none

structure CriterionScoreR where
  band : ℤ
  feedback : String
deriving DecidableEq

structure WritingEvaluationR where
  taskNumber : ℤ
  overallBand : ℚ
  taskAchievementOrResponse : CriterionScoreR
  coherenceAndCohesion : CriterionScoreR
  lexicalResource : CriterionScoreR
  grammaticalRangeAndAccuracy : CriterionScoreR
  strengths : String
  weaknesses : String
  improvementSuggestions : String
deriving DecidableEq

/-- `CriterionScore.model_validate` on one sub-object (`band`: int in
[0, 9]; `feedback`: string of length ≥ 20); errors carry the given
field-path prefix. -/
def validateCriterion (prefixPath : String) (v : Option JValue) :
    Except (List String) CriterionScoreR :=
  match v with
  | none => .error [prefixPath]
  | some v =>
    match v with
    | .obj _ =>
      let bandR : Except (List String) ℤ :=
        match (jGet v "band").bind coerceInt with
        | some b =>
          if 0 ≤ b ∧ b ≤ 9 then .ok b else .error [prefixPath ++ ".band"]
        | none => .error [prefixPath ++ ".band"]
      let fbR : Except (List String) String :=
        match jGet v "feedback" with
        | some (.str s) =>
          if 20 ≤ s.length then .ok s else .error [prefixPath ++ ".feedback"]
        | _ => .error [prefixPath ++ ".feedback"]
      match bandR, fbR with
      | .ok b, .ok f => .ok ⟨b, f⟩
      | .ok _, .error e => .error e
      | .error e, .ok _ => .error e
      | .error e, .error e' => .error (e ++ e')
    | _ => .error [prefixPath]

/-- A `min_length`-constrained string field. -/
def validateMinStr (path : String) (minLen : Nat) (v : Option JValue) :
    Except (List String) String :=
  match v with
  | some (.str s) => if minLen ≤ s.length then .ok s else .error [path]
  | _ => .error [path]

/-- `WritingEvaluation.model_validate`, collecting every field error. -/
def modelValidateWritingEvaluation (data : JValue) :
    Except (List String) WritingEvaluationR :=
  match data with
  | .obj _ =>
    let tnR : Except (List String) ℤ :=
      match jGet data "task_number" with
      | some (.num v false) =>
        if v == 1 || v == 2 then .ok v.num else .error ["task_number"]
      | _ => .error ["task_number"]
    let obR : Except (List String) ℚ :=
      match (jGet data "overall_band").bind coerceFloat with
      | some q =>
        if 0 ≤ q ∧ q ≤ 9 then
          -- `validate_band_increment`: replace by round(v * 2) / 2
          .ok ((pyRound (q * 2) : ℚ) / 2)
        else .error ["overall_band"]
      | none => .error ["overall_band"]
    let tarR := validateCriterion "task_achievement_or_response"
      (jGet data "task_achievement_or_response")
    let ccR := validateCriterion "coherence_and_cohesion"
      (jGet data "coherence_and_cohesion")
    let lrR := validateCriterion "lexical_resource"
      (jGet data "lexical_resource")
    let graR := validateCriterion "grammatical_range_and_accuracy"
      (jGet data "grammatical_range_and_accuracy")
    let stR := validateMinStr "strengths" 10 (jGet data "strengths")
    let wkR := validateMinStr "weaknesses" 10 (jGet data "weaknesses")
    let imR := validateMinStr "improvement_suggestions" 10
      (jGet data "improvement_suggestions")
    match tnR, obR, tarR, ccR, lrR, graR, stR, wkR, imR with
    | .ok tn, .ok ob, .ok tar, .ok cc, .ok lr, .ok gra, .ok st, .ok wk, .ok im =>
      .ok ⟨tn, ob, tar, cc, lr, gra, st, wk, im⟩
    | tnR, obR, tarR, ccR, lrR, graR, stR, wkR, imR =>
      .error (errsOf tnR ++ errsOf obR ++ errsOf tarR ++ errsOf ccR ++
        errsOf lrR ++ errsOf graR ++ errsOf stR ++ errsOf wkR ++ errsOf imR)
  | _ => .error ["__root__"]
where
  errsOf {α : Type} : Except (List String) α → List String
    | .ok _ => []
    | .error e => e

/-- `model_dump()` of a validated evaluation (snake_case keys, parallel
to the pydantic model). -/
def modelDump (r : WritingEvaluationR) : JValue :=
  let crit : CriterionScoreR → JValue := fun c =>
    .obj [("band", .num c.band false), ("feedback", .str c.feedback)]
  .obj
    [("task_number", .num r.taskNumber false),
     ("overall_band", .num r.overallBand true),
     ("task_achievement_or_response", crit r.taskAchievementOrResponse),
     ("coherence_and_cohesion", crit r.coherenceAndCohesion),
     ("lexical_resource", crit r.lexicalResource),
     ("grammatical_range_and_accuracy", crit r.grammaticalRangeAndAccuracy),
     ("strengths", .str r.strengths),
     ("weaknesses", .str r.weaknesses),
     ("improvement_suggestions", .str r.improvementSuggestions)]

/-! ## Writing evaluation service (src/services/writing_evaluation_service.py) -/

def MINIMUM_WORD_COUNT : Nat := 50
def VALID_TASK_NUMBERS : List ℤ := [1, 2]

/-- `WritingEvaluationService.validate_schema`: inserts the expected
`task_number` into the *input dict* when absent (an in-place mutation),
then validates against the pydantic model.  Returns the
(possibly-mutated) input together with the validation outcome; the outer
`Except` carries interpreter errors from the `in`/assignment on
non-dict input. -/
def writingEvalValidateSchema (data : JValue) (taskNumber : ℤ) :
    Except PyExn (JValue × Except PyExn WritingEvaluationR) := do
  let has ← pyContains "task_number" data
  let data' ← if !has then pySetItem data "task_number" (.num taskNumber false)
              else pure data
  match modelValidateWritingEvaluation data' with
  | .ok r => return (data', .ok r)
  | .error fields =>
    return (data', .error (.schemaValidation
      "Schema Validation Error: Evaluation response validation failed"
      (.evalErrors fields data')))

/-- `WritingEvaluationService._validate_input`: accumulates all input
violations, raising one `SchemaValidationError`; returns the word
count. -/
def evalValidateInput (userResponse : String) (taskNumber : ℤ)
    (module : String) (difficulty : String) : Except PyExn Nat := do
  let mut errors : List String := []
  if !(VALID_TASK_NUMBERS.contains taskNumber) then
    errors := errors ++ [s!"Invalid task_number: {taskNumber}. Must be 1 or 2."]
  if !(VALID_MODULES.contains module) then
    errors := errors ++
      [s!"Invalid module: {module}. Must be 'Academic' or 'General Training'."]
  if !(VALID_BANDS.contains difficulty) then
    errors := errors ++
      [s!"Invalid difficulty: {difficulty}. Must be between 5.0 and 9.0 (0.5 increments)."]
  let wordCount := pyWordCount userResponse
  if wordCount < MINIMUM_WORD_COUNT then
    errors := errors ++
      [s!"Response too short: {wordCount} words. Minimum required: {MINIMUM_WORD_COUNT} words."]
  if !errors.isEmpty then
    throw (.schemaValidation "Schema Validation Error: Input validation failed"
      (.errors errors []))
  return wordCount

/-- `WritingEvaluationService.evaluate_response`: single pass — input
validation (before any model call), one Gemini invocation (`response`
oracle, recorded as a `modelCall` event), JSON extraction, pydantic
validation, `model_dump()`. -/
def evaluateResponse (userResponse : String) (taskNumber : ℤ)
    (module : String) (difficulty : String)
    (response : Except PyExn String) : Except PyExn JValue × List Event :=
  match evalValidateInput userResponse taskNumber module difficulty with
  | .error e => (.error e, [])
  | .ok _wordCount =>
    let result : Except PyExn JValue := do
      let responseText ← response
      let evaluationData ← extractJsonFromResponse responseText
      let (_, outcome) ← writingEvalValidateSchema evaluationData taskNumber
      let validated ← outcome
      return modelDump validated
    (result, [.modelCall])

/-! ## Concrete inputs used by the claim theorems -/

/-- The rational 7.3, given in reduced `num`/`den` form so that field
projections reduce definitionally (rational normalisation via `Nat.gcd`
does not reduce in the kernel). -/
def q73 : ℚ := ⟨73, 10, by norm_num, by norm_num⟩

/-- A concrete model payload whose `overall_band` is the off-grid 7.3. -/
def eval73 : JValue := .obj
  [("task_number", .num 2 false),
   ("overall_band", .num q73 true),
   ("task_achievement_or_response", .obj
     [("band", .num 7 false), ("feedback", .str "Clear, well-supported response throughout.")]),
   ("coherence_and_cohesion", .obj
     [("band", .num 7 false), ("feedback", .str "Logical organisation and good cohesion.")]),
   ("lexical_resource", .obj
     [("band", .num 7 false), ("feedback", .str "Wide range of vocabulary used accurately.")]),
   ("grammatical_range_and_accuracy", .obj
     [("band", .num 8 false), ("feedback", .str "Varied structures with very few errors.")]),
   ("strengths", .str "Strong thesis and examples."),
   ("weaknesses", .str "Occasional word-choice slips."),
   ("improvement_suggestions", .str "Proofread complex sentences.")]

/-- The validated record for `eval73`; the band field is written as the
validator computes it, and `C10_overall_band_half_grid` shows it equals
7.5. -/
def r73 : WritingEvaluationR :=
  ⟨2, (pyRound (q73 * 2) : ℚ) / 2,
   ⟨7, "Clear, well-supported response throughout."⟩,
   ⟨7, "Logical organisation and good cohesion."⟩,
   ⟨7, "Wide range of vocabulary used accurately."⟩,
   ⟨8, "Varied structures with very few errors."⟩,
   "Strong thesis and examples.",
   "Occasional word-choice slips.",
   "Proofread complex sentences."⟩

def wordResponse40 : String := String.intercalate " " (List.replicate 40 "word")

/-- The failing-field list the pydantic model reports for a payload
that carries only `task_number`. -/
def evalMissingFields : List String :=
  ["overall_band", "task_achievement_or_response", "coherence_and_cohesion",
   "lexical_resource", "grammatical_range_and_accuracy", "strengths",
   "weaknesses", "improvement_suggestions"]

/-- A payload that already carries `task_number`. -/
def c5data : JValue := .obj [("task_number", .num 1 false)]

def c5out : Except PyExn WritingEvaluationR :=
  .error (.schemaValidation
    "Schema Validation Error: Evaluation response validation failed"
    (.evalErrors evalMissingFields c5data))

/-- A well-formed sample response with a 60-character text (shorter
than the 100 characters the spec demands, longer than the 50 the code
warns about). -/
def c7shortSample : JValue :=
  .obj [("band_score", .num 7 false),
        ("response_text", .str (String.mk (List.replicate 60 'a')))]

/-- A Writing task object passing every per-task check of
`WritingTestService.validate_schema` except possibly the sample
checks. -/
def writingTask (n : ℚ) (ttype weight : String) (mwc : ℚ)
    (samples : List JValue) : JValue :=
  .obj [("task_number", .num n false), ("task_type", .str ttype),
        ("minimum_word_count", .num mwc false),
        ("assessment_weight", .str weight),
        ("sample_responses", .arr samples)]

/-- The fields of a Writing test object passing every non-sample check
of `WritingTestService.validate_schema`, with the two tasks' sample
lists left as parameters. -/
def writingTemplateFields (s1 s2 : List JValue) : List (String × JValue) :=
  [("test_name", .str "IELTS Writing"),
   ("module", .str "Academic"),
   ("total_time_minutes", .num 60 false),
   ("tasks", .arr [writingTask 1 "Report_Graph" "33%" 150 s1,
                   writingTask 2 "Essay_Opinion" "67%" 250 s2]),
   ("assessment", .obj [("criteria", .arr []),
                        ("scoring_methodology", .str "m"),
                        ("band_scale", .str "0-9")]),
   ("test_metadata", .obj [("schema_version", .str "3.0"),
                           ("difficulty_band", .str "6.5")])]

def writingTemplate (s1 s2 : List JValue) : JValue :=
  .obj (writingTemplateFields s1 s2)

/-- Concrete model-response builders used by witnesses: a minimal
reading question, passage, answer key and full response accepted by the
reading pipeline. -/
def rq (n : Nat) : String :=
  "\x7b\"question_number\": " ++ toString n ++
  ", \"type\": \"short_answer\", \"answer\": \"A\", \"explanation\": \"e\"\x7d"

def rpassage (pn : Nat) (qns : List Nat) : String :=
  "\x7b\"passage_number\": " ++ toString pn ++
  ", \"heading\": \"h\", \"text\": \"x\", \"word_count\": 800, \"questions\": ["
  ++ String.intercalate ", " (qns.map rq) ++ "]\x7d"

def rkey : String :=
  "\x7b" ++ String.intercalate ", "
    ((List.range 40).map (fun i => "\"" ++ toString (i+1) ++ "\": \"X\"")) ++ "\x7d"

/-- A full reading response: 3 passages, 14+13+13 questions (all
numbered 1 — accepted, see C4), every answer "A", an answer key mapping
"1".."40" to "X" (see C6). -/
def readingResponse : String :=
  "\x7b\"test_type\": \"IELTS Academic\", \"total_questions\": 40, \"total_duration_minutes\": 60, "
  ++ "\"test_metadata\": \x7b\"schema_version\": \"2.0\", \"difficulty_band\": \"7.0\", \"topics\": [\"a\", \"b\", \"c\"]\x7d, "
  ++ "\"passages\": [" ++ rpassage 1 (List.replicate 14 1) ++ ", "
  ++ rpassage 2 (List.replicate 13 1) ++ ", "
  ++ rpassage 3 (List.replicate 13 1) ++ "], "
  ++ "\"answer_key\": " ++ rkey ++ "\x7d"

/-- A model oracle failing on the first attempt (no JSON) and returning
a valid reading test on the second. -/
def c3responses : Nat → Except PyExn String :=
  fun k => if k == 1 then .ok "no json here" else .ok readingResponse

/-- The test object the successful second attempt produces. -/
def c3expected : JValue :=
  match readingAttempt c3responses 2 with
  | .ok v => v
  | .error _ => .null

/-- An always-failing oracle: the empty JSON object parses but fails
reading validation on every attempt. -/
def c2responses : Nat → Except PyExn String := fun _ => .ok "\x7b\x7d"

/-- The validation details of one failed reading attempt on `"{}"`
(written here via the extraction match so it evaluates). -/
def c2rd : SVDetails :=
  match readingAttempt c2responses 1 with
  | .error (.schemaValidation _ d) => d
  | _ => .errors [] []

def c2lresponses : Nat → Except PyExn String := fun _ => .ok "\x7b\x7d"

def c2lg : SVDetails :=
  match listeningAttempt "tid" "now" c2lresponses (fun _ _ _ => "g") 1 with
  | .error (.schemaValidation _ d) => d
  | _ => .errors [] []

/-- An oracle whose model call itself raises a non-validation error. -/
def c2nresponses : Nat → Except PyExn String :=
  fun _ => .error (.geminiAPI "Gemini API Error: boom")

/-- The parsed duplicate-numbered reading test (all 40 questions carry
`question_number` 1). -/
def c4data : JValue :=
  match jsonLoads readingResponse with
  | some v => v
  | none => .null

/-- The `question_number` fields of all questions across passages, in
order (observation helper for the counterexample). -/
def readingQuestionNumbers (data : JValue) : List JValue :=
  match jGetD data "passages" (.arr []) with
  | .arr ps =>
    (ps.map (fun p =>
      match jGetD p "questions" (.arr []) with
      | .arr qs => qs.map (fun q => jGetD q "question_number" .null)
      | _ => [])).flatten
  | _ => []

/-- Listening model-response builders: four sections of ten questions
(numbered 1..40), 500-character transcripts — a response the full
listening pipeline accepts. -/
def mkQn (n : Nat) : String :=
  "\x7b\"question_number\": " ++ toString n ++ ", \"answer\": \"A\"\x7d"

def mkSection (i : Nat) : String :=
  "\x7b\"section_number\": " ++ toString i ++
  ", \"section_type\": \"t\", \"audio_transcript\": \""
  ++ String.mk (List.replicate 500 'A')
  ++ "\", \"questions\": [" ++ String.intercalate ", "
    ((List.range 10).map (fun j => mkQn ((i-1)*10 + j + 1)))
  ++ "], \"section_question_range\": 0, \"section_instructions\": 0, \"context\": 0, \"speakers\": 0, \"difficulty_band\": 0, \"audio_duration_seconds\": 0\x7d"

def listeningResponse : String :=
  "\x7b\"test_type\": \"x\", \"total_questions\": 40, \"audio_duration_minutes\": 30, \"test_metadata\": \x7b\"schema_version\": \"2.1\", \"difficulty_band\": \"6.5\"\x7d, \"sections\": ["
  ++ String.intercalate ", " ((List.range 4).map (fun i => mkSection (i+1))) ++ "]\x7d"

def c6lresponses : Nat → Except PyExn String := fun _ => .ok listeningResponse

def c6lt : JValue :=
  match listeningAttempt "tid" "now" c6lresponses (fun _ _ _ => "generated") 1 with
  | .ok v => v
  | .error _ => .null

def c6test : JValue :=
  match readingAttempt (fun _ => .ok readingResponse) 1 with
  | .ok v => v
  | .error _ => .null

def readingQuestionAnswers (data : JValue) : List JValue :=
  match jGetD data "passages" (.arr []) with
  | .arr ps =>
    (ps.map (fun p =>
      match jGetD p "questions" (.arr []) with
      | .arr qs => qs.map (fun q => jGetD q "answer" .null)
      | _ => [])).flatten
  | _ => []

/-- Observation helper: the (block_number, section_number, range-min,
range-max) fields of an audio block object. -/
def blockTriple (b : JValue) : JValue × JValue × JValue × JValue :=
  (jGetD b "block_number" .null, jGetD b "section_number" .null,
   jGetD (jGetD b "question_range" .null) "min" .null,
   jGetD (jGetD b "question_range" .null) "max" .null)

/-- The test returned by a full concrete listening generation. -/
def c1t : JValue :=
  match (listeningGenerateTest "6.5" "tid" "now" c6lresponses
      (fun _ _ _ => "generated")).1 with
  | .ok v => v
  | .error _ => .null

/-! # Supporting lemmas -/

theorem except_bind_ok {ε α β : Type} {e : Except ε α} {f : α → Except ε β}
    {b : β} : e >>= f = .ok b ↔ ∃ a, e = .ok a ∧ f a = .ok b := by
  cases e <;> simp [Bind.bind, Except.bind]

theorem except_bind_err {ε α β : Type} {e : Except ε α} {f : α → Except ε β}
    {err : ε} (h : e = .error err) : e >>= f = .error err := by
  subst h; rfl

theorem except_bind_ok_fn {ε α β : Type} {e : Except ε α} {f : α → Except ε β}
    {a : α} (h : e = .ok a) : e >>= f = f a := by
  subst h; rfl

theorem find?_map_upd_self (es : List (String × JValue)) (k : String)
    (v : JValue) (h : es.any (fun e => e.1 == k) = true) :
    (es.map (fun e => if e.1 == k then (k, v) else e)).find?
      (fun e => e.1 == k) = some (k, v) := by
  induction es with
  | nil => simp at h
  | cons e es ih =>
    by_cases he : (e.1 == k) = true
    · rw [List.map_cons, if_pos he]
      simp [List.find?]
    · simp only [List.any_cons] at h
      have hne : (e.1 == k) = false := by simpa using he
      rw [List.map_cons, if_neg he]
      simp only [List.find?, hne]
      exact ih (by revert h; rw [hne]; simp)

theorem find?_map_upd_ne (es : List (String × JValue)) (k k' : String)
    (v : JValue) (h : k' ≠ k) :
    (es.map (fun e => if e.1 == k then (k, v) else e)).find?
      (fun e => e.1 == k') = es.find? (fun e => e.1 == k') := by
  induction es with
  | nil => rfl
  | cons e es ih =>
    by_cases he : (e.1 == k) = true
    · have heq : e.1 = k := beq_iff_eq.mp he
      have h1 : (k == k') = false := beq_false_of_ne (Ne.symm h)
      have h2 : (e.1 == k') = false := by rw [heq]; exact h1
      rw [List.map_cons, if_pos he]
      simp only [List.find?, h1, h2]
      exact ih
    · have hne : (e.1 == k) = false := by simpa using he
      rw [List.map_cons, if_neg he]
      by_cases he' : (e.1 == k') = true
      · simp only [List.find?, he']
      · have hne' : (e.1 == k') = false := by simpa using he'
        simp only [List.find?, hne']
        exact ih

theorem find?_eq_none_of_not_any (es : List (String × JValue)) (k : String)
    (h : es.any (fun e => e.1 == k) = false) :
    es.find? (fun e => e.1 == k) = none := by
  induction es with
  | nil => rfl
  | cons e es ih =>
    simp only [List.any_cons, Bool.or_eq_false_iff] at h
    simp [List.find?, h.1, ih h.2]

theorem dictGet_dictSet_self (es : List (String × JValue)) (k : String)
    (v : JValue) : dictGet (dictSet es k v) k = some v := by
  unfold dictSet dictGet
  by_cases h : (es.any fun e => e.1 == k) = true
  · rw [if_pos h, find?_map_upd_self es k v h]
    rfl
  · have hf : (es.any fun e => e.1 == k) = false := by
      revert h; cases es.any fun e => e.1 == k <;> simp
    rw [if_neg h, List.find?_append, find?_eq_none_of_not_any es k hf]
    simp [List.find?]

theorem dictGet_dictSet_ne (es : List (String × JValue)) (k k' : String)
    (v : JValue) (h : k' ≠ k) :
    dictGet (dictSet es k v) k' = dictGet es k' := by
  unfold dictSet dictGet
  by_cases hany : (es.any fun e => e.1 == k) = true
  · rw [if_pos hany, find?_map_upd_ne es k k' v h]
  · rw [if_neg hany, List.find?_append]
    cases hf : es.find? (fun e => e.1 == k') with
    | some e => simp [hf]
    | none => simp [hf, List.find?, beq_false_of_ne (Ne.symm h)]

theorem pySetItem_ok {v : JValue} {k : String} {x t : JValue}
    (h : pySetItem v k x = .ok t) :
    ∃ es, v = .obj es ∧ t = .obj (dictSet es k x) := by
  cases v <;> simp_all [pySetItem]

/-- Each step of a `foldlM` that cannot throw keeps the fold in `.ok`. -/
theorem foldlM_ok {α β : Type} {f : β → α → Except PyExn β}
    (hf : ∀ acc a, ∃ r, f acc a = .ok r) :
    ∀ (l : List α) (init : β), ∃ r, List.foldlM f init l = .ok r := by
  intro l
  induction l with
  | nil => intro i; exact ⟨i, rfl⟩
  | cons a l ih =>
    intro i
    obtain ⟨r, hr⟩ := hf i a
    obtain ⟨r', hr'⟩ := ih r
    exact ⟨r', by simp [List.foldlM, hr, except_bind_ok_fn, hr']⟩

/-! # Claim C8 — JSON extractor behaviour -/

theorem dropTrailingWs_sublist (cs : List Char) :
    (dropTrailingWs cs).Sublist cs := by
  induction cs with
  | nil => simp [dropTrailingWs]
  | cons c cs ih =>
    rw [dropTrailingWs]
    by_cases h : pyIsSpace c = true
    · rw [if_pos h]
      cases hd : dropTrailingWs cs with
      | nil => exact List.nil_sublist _
      | cons x xs =>
        show (c :: (x :: xs)).Sublist (c :: cs)
        rw [← hd]
        exact ih.cons₂ c
    · rw [if_neg h]; exact ih.cons₂ c

theorem stripChars_sublist (cs : List Char) : (stripChars cs).Sublist cs :=
  (dropTrailingWs_sublist _).trans (List.dropWhile_sublist _)

theorem stripOpenFence_sublist (cs : List Char) :
    (stripOpenFence cs).Sublist cs := by
  unfold stripOpenFence
  apply (List.dropWhile_sublist _).trans
  by_cases h : listStartsWith (cs.drop 3) "json".data = true
  · rw [if_pos h]
    exact (List.drop_sublist _ _).trans (List.drop_sublist _ _)
  · rw [if_neg h]
    exact List.drop_sublist _ _

theorem stripCloseFence_sublist (cs : List Char) :
    (stripCloseFence cs).Sublist cs := by
  unfold stripCloseFence
  cases hfind : (List.range (listLen cs + 1)).find? (closeFenceAt cs) with
  | none => exact List.Sublist.refl _
  | some i => exact List.take_sublist _ _

theorem cleanFences_sublist (cs : List Char) :
    (cleanFences cs).Sublist cs := by
  unfold cleanFences
  by_cases hf : listStartsWith (stripChars cs) "```".data = true
  · rw [if_pos hf]
    exact (stripCloseFence_sublist _).trans
      ((stripOpenFence_sublist _).trans (stripChars_sublist _))
  · rw [if_neg hf]
    exact stripChars_sublist _

theorem cleanFences_subset (cs : List Char) {a : Char}
    (h : a ∈ cleanFences cs) : a ∈ cs :=
  (cleanFences_sublist cs).subset h

theorem braceSpan_none_of_no_brace {cs : List Char} (h : '{' ∉ cs) :
    braceSpan cs = none := by
  have h0 : cs.findIdx? (· == '{') = none := by
    rw [List.findIdx?_eq_none_iff]
    intro x hx
    exact beq_false_of_ne (fun he => h (he ▸ hx))
  unfold braceSpan
  rw [h0]

theorem greedyBraceSpan_none_of_no_brace {cs : List Char} (h : '{' ∉ cs) :
    greedyBraceSpan cs = none := by
  have h0 : cs.findIdx? (· == '{') = none := by
    rw [List.findIdx?_eq_none_iff]
    intro x hx
    exact beq_false_of_ne (fun he => h (he ▸ hx))
  unfold greedyBraceSpan
  rw [h0]

/-- C8 as stated is false: the input `"42"` contains no brace, yet the
extractor returns the parsed number `42` from the direct-parse strategy
instead of raising `JSONParseError`. -/
theorem C8_counterexample :
    extractJsonFromResponse "42" = .ok (.num 42 false) ∧ '{' ∉ "42".data :=
  ⟨by rfl, by decide⟩

/-- C8 (amended): the extractor returns the object with key "a" mapped
to 1 for the fenced input (fence-stripping strategy) and for the
noise-wrapped input (brace matching); an input with no brace character
raises `JSONParseError` *provided* neither direct parsing of the
fence-stripped text nor a fenced code block's interior parses as JSON —
otherwise that directly-parsed (non-object) value is returned, as for
input "42". -/
theorem C8_extractor_behaviour :
    extractJsonFromResponse "```json\n\x7b\"a\":1\x7d\n```" =
      .ok (.obj [("a", .num 1 false)]) ∧
    extractJsonFromResponse "noise \x7b\"a\":1\x7d noise" =
      .ok (.obj [("a", .num 1 false)]) ∧
    ∀ s : String, '{' ∉ s.data →
      jsonLoads ⟨cleanFences s.data⟩ = none →
      (∀ interior, fenceSearch s.data = some interior →
        jsonLoads ⟨interior⟩ = none) →
      extractJsonFromResponse s =
        .error (.jsonParse
          "JSON Parse Error: Could not extract valid JSON from API response"
          ⟨s.data.take 500⟩) := by
  refine ⟨by rfl, by rfl, ?_⟩
  intro s h1 h2 h3
  have hclean : '{' ∉ cleanFences s.data := fun hm => h1 (cleanFences_subset _ hm)
  unfold extractJsonFromResponse
  simp only [h2, braceSpan_none_of_no_brace hclean]
  unfold extractJsonFromResponse.extractTail
  cases hf : fenceSearch s.data with
  | none =>
    unfold extractJsonFromResponse.extractLast
    simp only [greedyBraceSpan_none_of_no_brace h1]
    rfl
  | some interior =>
    simp only [h3 interior hf]
    unfold extractJsonFromResponse.extractLast
    simp only [greedyBraceSpan_none_of_no_brace h1]
    rfl

set_option maxRecDepth 4000 in
theorem C8_extractor_behaviour_witness :
    ('{' ∉ "no json here".data) ∧
    extractJsonFromResponse "no json here" =
      .error (.jsonParse
        "JSON Parse Error: Could not extract valid JSON from API response"
        "no json here") := by
  refine ⟨by decide, ?_⟩
  exact C8_extractor_behaviour.2.2 "no json here" (by decide) (by rfl)
    (fun interior hi => by
      rw [show fenceSearch "no json here".data = none from by rfl] at hi
      cases hi)

/-! # Claim C10 — overall_band is a multiple of 0.5 in [0, 9] -/

/-- `round(x)` lands on `⌊x⌋`, or on `⌊x⌋ + 1` when the fractional part
is at least one half. -/
theorem pyRound_cases (x : ℚ) :
    pyRound x = ⌊x⌋ ∨ (pyRound x = ⌊x⌋ + 1 ∧ 1 / 2 ≤ x - ⌊x⌋) := by
  simp only [pyRound, ← Rat.floor_def]
  split_ifs with h1 h2 h3
  · exact Or.inl rfl
  · exact Or.inr ⟨rfl, le_of_lt h2⟩
  · exact Or.inl rfl
  · exact Or.inr ⟨rfl, by linarith [not_lt.mp h1]⟩

theorem pyRound_nonneg {x : ℚ} (h : 0 ≤ x) : 0 ≤ pyRound x := by
  have hf : (0 : ℤ) ≤ ⌊x⌋ := Int.floor_nonneg.mpr h
  rcases pyRound_cases x with hr | ⟨hr, _⟩ <;> omega

theorem pyRound_le_of_le {x : ℚ} (h : x ≤ 18) : pyRound x ≤ 18 := by
  have hf : ⌊x⌋ ≤ 18 := by
    have := Int.floor_le_floor (α := ℚ) h
    simpa using this
  rcases pyRound_cases x with hr | ⟨hr, hhalf⟩
  · omega
  · have hfl : (⌊x⌋ : ℚ) + 1 / 2 ≤ x := by linarith
    have : (⌊x⌋ : ℚ) < 18 := by linarith
    have : ⌊x⌋ < 18 := by exact_mod_cast this
    omega

theorem q73_eq : q73 = 73 / 10 := by
  rw [q73, Rat.mk'_eq_divInt, Rat.divInt_eq_div]
  norm_num

theorem pyRound_q73_twice : pyRound (q73 * 2) = 15 := by
  have h2 : q73 * 2 = 73 / 5 := by rw [q73_eq]; norm_num
  have hf : ⌊(73 / 5 : ℚ)⌋ = 14 := by
    rw [Int.floor_eq_iff]
    norm_num
  rw [h2]
  simp only [pyRound, ← Rat.floor_def, hf]
  rw [if_neg (by norm_num), if_pos (by norm_num)]
  norm_num

/-- C10: every `EvaluationResult` accepted by the writing-evaluation
output validator has `overall_band` equal to a multiple of 0.5 in
[0, 9]; an off-grid value submitted by the model is auto-corrected to
the nearest 0.5 rather than rejected — concretely, a payload with
`overall_band` 7.3 is accepted with the band corrected to 7.5. -/
theorem C10_overall_band_half_grid :
    (∀ data r, modelValidateWritingEvaluation data = .ok r →
      (∃ k : ℤ, r.overallBand = (k : ℚ) / 2) ∧
      0 ≤ r.overallBand ∧ r.overallBand ≤ 9) ∧
    (modelValidateWritingEvaluation eval73 = .ok r73 ∧
      r73.overallBand = 15 / 2) := by
  constructor
  · intro data r h
    unfold modelValidateWritingEvaluation at h
    cases data with
    | obj es =>
      simp only at h
      split at h
      · next tn ob tar cc lr gra st wk im htn hob htar hcc hlr hgra hst hwk him =>
        cases h
        -- dissect the overall_band field computation
        split at hob
        · next q hq =>
          split at hob
          · next hrange =>
            cases hob
            refine ⟨⟨pyRound (q * 2), rfl⟩, ?_, ?_⟩
            · have := pyRound_nonneg (x := q * 2) (by linarith [hrange.1])
              have h0 : (0 : ℚ) ≤ (pyRound (q * 2) : ℚ) := by exact_mod_cast this
              linarith
            · have := pyRound_le_of_le (x := q * 2) (by linarith [hrange.2])
              have h18 : ((pyRound (q * 2) : ℤ) : ℚ) ≤ 18 := by exact_mod_cast this
              linarith
          · cases hob
        · cases hob
      · next h' => cases h
    | null => cases h
    | bool b => cases h
    | num v f => cases h
    | nan => cases h
    | inf n => cases h
    | str s => cases h
    | arr xs => cases h
  · refine ⟨by rfl, ?_⟩
    show (pyRound (q73 * 2) : ℚ) / 2 = 15 / 2
    rw [pyRound_q73_twice]
    norm_num

theorem C10_overall_band_half_grid_witness :
    modelValidateWritingEvaluation eval73 = .ok r73 ∧
    ((∃ k : ℤ, r73.overallBand = (k : ℚ) / 2) ∧
      0 ≤ r73.overallBand ∧ r73.overallBand ≤ 9) :=
  ⟨C10_overall_band_half_grid.2.1,
   C10_overall_band_half_grid.1 eval73 r73 C10_overall_band_half_grid.2.1⟩

/-! # Claim C9 — short responses rejected before any model call -/

/-- C9: calling `evaluate_response` with a 40-word response and
otherwise valid task number, module and difficulty raises a
`SchemaValidationError` whose error list is exactly
`["Response too short: 40 words. Minimum required: 50 words."]`,
and the model client is never invoked (the event trace is empty — in
particular it records no model call). -/
theorem C9_short_response_no_model_call
    (resp : String) (tn : ℤ) (module difficulty : String)
    (oracle : Except PyExn String)
    (h1 : pyWordCount resp = 40)
    (h2 : tn = 1 ∨ tn = 2)
    (h3 : module ∈ VALID_MODULES)
    (h4 : difficulty ∈ VALID_BANDS) :
    evaluateResponse resp tn module difficulty oracle =
      (.error (.schemaValidation
        "Schema Validation Error: Input validation failed"
        (.errors ["Response too short: 40 words. Minimum required: 50 words."] [])),
       []) := by
  have hm2 : tn ∈ VALID_TASK_NUMBERS := by
    rcases h2 with rfl | rfl <;> decide
  have hval : evalValidateInput resp tn module difficulty =
      .error (.schemaValidation
        "Schema Validation Error: Input validation failed"
        (.errors ["Response too short: 40 words. Minimum required: 50 words."] [])) := by
    simp only [evalValidateInput, h1, MINIMUM_WORD_COUNT]
    simp [hm2, h3, h4, throw, throwThe, MonadExceptOf.throw, Except.map]
    rfl
  unfold evaluateResponse
  rw [hval]

theorem C9_short_response_no_model_call_witness :
    pyWordCount wordResponse40 = 40 ∧
    ("Academic" ∈ VALID_MODULES) ∧ ("7.0" ∈ VALID_BANDS) ∧
    evaluateResponse wordResponse40 2 "Academic" "7.0" (.ok "unused") =
      (.error (.schemaValidation
        "Schema Validation Error: Input validation failed"
        (.errors ["Response too short: 40 words. Minimum required: 50 words."] [])),
       []) :=
  ⟨by rfl, by decide, by decide,
   C9_short_response_no_model_call wordResponse40 2 "Academic" "7.0" (.ok "unused")
     (by rfl) (Or.inr rfl) (by decide) (by decide)⟩

/-! # Claim C5 — validators and input mutation -/

/-- C5 is false for the writing-evaluation output validator: called on
an object without a `task_number` key, `validate_schema` inserts
`task_number` into that very dict before validating, so the input
object is mutated (here: from an empty dict to a one-entry dict) even
though validation then fails. -/
theorem C5_counterexample :
    jHas (JValue.obj []) "task_number" = false ∧
    writingEvalValidateSchema (.obj []) 2 =
      .ok (.obj [("task_number", .num 2 false)],
        .error (.schemaValidation
          "Schema Validation Error: Evaluation response validation failed"
          (.evalErrors evalMissingFields
            (.obj [("task_number", .num 2 false)])))) :=
  ⟨rfl, rfl⟩

/-- C5 (amended): the reading, listening and writing test validators
perform no assignment into their input (their embeddings are
read-only); the writing-evaluation output validator leaves its input
unchanged when a `task_number` key is present, and otherwise hands back
the input with `task_number` set to the expected task — the one
mutation the source performs. -/
theorem C5_validator_mutation (data : JValue) (tn : ℤ) (d' : JValue)
    (out : Except PyExn WritingEvaluationR)
    (h : writingEvalValidateSchema data tn = .ok (d', out)) :
    (jHas data "task_number" = true → d' = data) ∧
    (jHas data "task_number" = false →
      d' = jSet data "task_number" (.num tn false)) := by
  unfold writingEvalValidateSchema at h
  cases data <;>
    simp only [pyContains, pySetItem, Bind.bind, Except.bind, pure,
      Except.pure] at h <;>
    try (cases h)
  case obj es =>
    by_cases hh : dictHas es "task_number" = true
    · simp only [hh, Bool.not_true] at h
      rw [if_neg (by simp)] at h
      split at h <;> simp_all [jHas, jSet]
    · have hh' : dictHas es "task_number" = false := by
        revert hh; cases dictHas es "task_number" <;> simp
      simp only [hh', Bool.not_false] at h
      rw [if_pos trivial] at h
      split at h <;> simp_all [jHas, jSet]
  case str s =>
    by_cases hc : strContains s.data "task_number".data = true
    · simp only [hc, Bool.not_true] at h
      rw [if_neg (by simp)] at h
      split at h <;> simp_all [jHas, jSet]
    · have hc' : strContains s.data "task_number".data = false := by
        revert hc; cases strContains s.data "task_number".data <;> simp
      simp only [hc', Bool.not_false] at h
      rw [if_pos trivial] at h
      cases h
  case arr xs =>
    by_cases hc : (xs.any (pyEq (.str "task_number"))) = true
    · simp only [hc, Bool.not_true] at h
      rw [if_neg (by simp)] at h
      split at h <;> simp_all [jHas, jSet]
    · have hc' : (xs.any (pyEq (.str "task_number"))) = false := by
        revert hc; cases xs.any (pyEq (.str "task_number")) <;> simp
      simp only [hc', Bool.not_false] at h
      rw [if_pos trivial] at h
      cases h

theorem C5_validator_mutation_witness :
    writingEvalValidateSchema c5data 2 = .ok (c5data, c5out) ∧
    jHas c5data "task_number" = true ∧ c5data = c5data :=
  ⟨rfl, rfl, (C5_validator_mutation c5data 2 c5data c5out rfl).1 rfl⟩

/-! # Claim C7 — writing validator and sample responses -/

/-- On the writing template, the task checks contribute no errors; the
only task findings are the sample warnings. -/
theorem writingTaskFindings_template (s1 s2 : List JValue) :
    writingTaskFindings
      (dictGetD (writingTemplateFields s1 s2) "tasks" (JValue.arr []))
      "Academic" =
    if s1.length < 1 then
      Except.ok (([] : List String), ["Task 1 has no sample responses"] ++
        (if s2.length < 1 then ["Task 2 has no sample responses"] else []))
    else
      Except.bind (writingSamplesFold 1 s1) (fun ws1 =>
        Except.ok (([] : List String), ((ws1 ++ []) ++ []) ++
          (if s2.length < 1 then ["Task 2 has no sample responses"]
           else []))) := by
  cases s1 with
  | nil => cases s2 <;> rfl
  | cons a as =>
    cases s2 <;> (conv_lhs => whnf) <;>
      rcases writingSamplesFold 1 (a :: as) with e | v <;> rfl

/-- A findings pair with no errors is accepted by
`WritingTestService.validate_schema`. -/
theorem writingValidateSchema_of_findings {data : JValue} {m : String}
    {w : List String}
    (h : writingSchemaFindings data m = .ok ([], w)) :
    writingValidateSchema data m = .ok true := by
  unfold writingValidateSchema
  rw [except_bind_ok_fn h]
  rfl

/-- C7 is false: a Writing test whose tasks both have zero sample
responses is accepted by `validate_schema` (the missing-sample findings
are warnings, not errors), and a test whose sample response text has
only 60 characters is accepted without any finding at all — the code
warns only below 50 characters, and only for Task 1. -/
theorem C7_counterexample :
    writingValidateSchema (writingTemplate [] []) "Academic" = .ok true ∧
    writingSchemaFindings (writingTemplate [] []) "Academic" =
      .ok ([], ["Task 1 has no sample responses",
                "Task 2 has no sample responses"]) ∧
    writingValidateSchema (writingTemplate [c7shortSample] [c7shortSample])
      "Academic" = .ok true ∧
    writingSchemaFindings (writingTemplate [c7shortSample] [c7shortSample])
      "Academic" = .ok ([], []) ∧
    pyLen (.str (String.mk (List.replicate 60 'a'))) = .ok 60 :=
  ⟨rfl, rfl, rfl, rfl, rfl⟩

set_option maxHeartbeats 2000000 in
/-- C7 (amended): on any Writing test built from the template — every
non-sample check passing, arbitrary sample lists — the validator's
sample-response checks never produce errors: whenever validation
completes it accepts the test, and a task with zero sample responses
merely contributes the warning "Task N has no sample responses". -/
theorem C7_sample_checks_warn_only (s1 s2 : List JValue)
    (errors warnings : List String)
    (h : writingSchemaFindings (writingTemplate s1 s2) "Academic" =
      .ok (errors, warnings)) :
    errors = [] ∧
    writingValidateSchema (writingTemplate s1 s2) "Academic" = .ok true ∧
    (s1 = [] → "Task 1 has no sample responses" ∈ warnings) ∧
    (s2 = [] → "Task 2 has no sample responses" ∈ warnings) := by
  have h0 := h
  conv at h => lhs; whnf
  rw [writingTaskFindings_template] at h
  cases s1 with
  | nil =>
    rw [if_pos (by decide)] at h
    conv at h => lhs; whnf
    injection h with h1
    injection h1 with hE hW
    subst hE; subst hW
    refine ⟨rfl, writingValidateSchema_of_findings h0, fun _ => ?_,
      fun hs2 => ?_⟩
    · simp [List.mem_append]
    · subst hs2; simp
  | cons a as =>
    rw [if_neg (by simp)] at h
    rcases hf : writingSamplesFold 1 (a :: as) with e | ws1
    · rw [hf] at h
      simp only [Except.bind] at h
      exact absurd h (by simp)
    · rw [hf] at h
      simp only [Except.bind] at h
      conv at h => lhs; whnf
      injection h with h1
      injection h1 with hE hW
      subst hE; subst hW
      refine ⟨rfl, writingValidateSchema_of_findings h0, fun hc => ?_,
        fun hs2 => ?_⟩
      · exact absurd hc (by simp)
      · subst hs2
        simp [List.mem_append]

theorem C7_sample_checks_warn_only_witness :
    writingValidateSchema (writingTemplate [] []) "Academic" = .ok true ∧
    "Task 1 has no sample responses" ∈
      ["Task 1 has no sample responses",
       "Task 2 has no sample responses"] :=
  ⟨(C7_sample_checks_warn_only [] [] []
      ["Task 1 has no sample responses", "Task 2 has no sample responses"]
      (by rfl)).2.1,
   (C7_sample_checks_warn_only [] [] []
      ["Task 1 has no sample responses", "Task 2 has no sample responses"]
      (by rfl)).2.2.1 rfl⟩

/-! # Claim C3 — retry behaviour across the orchestrators -/

/-- C3 is false for the Writing orchestrator: a first-attempt failure
(here: a response with no JSON) is surfaced immediately as the result —
one model call, no sleep, no further attempt. -/
theorem C3_counterexample :
    writingGenerateTest "Academic" "7.0" (.ok "no json here at all") =
      (.error (.jsonParse
        "JSON Parse Error: Could not extract valid JSON from API response"
        "no json here at all"), [.modelCall]) ∧
    countSleeps [Event.modelCall] = 0 ∧
    countAttempts [Event.modelCall] = 0 :=
  ⟨rfl, rfl, rfl⟩

/-- C3 (amended): the reading (and listening, see C2) orchestrator
retries: a failed attempt is followed by a fixed
`RETRY_DELAY_SECONDS` sleep and a fresh attempt.  The Writing
orchestrator is single-pass: it never sleeps, never starts a retry
attempt, and makes at most one model call. -/
theorem C3_retry_and_single_pass
    (responses : Nat → Except PyExn String) (e : PyExn) (v : JValue)
    (h1 : readingAttempt responses 1 = .error e)
    (h2 : readingAttempt responses 2 = .ok v)
    (module difficulty : String) (resp : Except PyExn String) :
    readingGenerateTest "7.0" responses =
      (.ok v, [.attemptStart 1, .sleep RETRY_DELAY_SECONDS,
               .attemptStart 2]) ∧
    countSleeps (writingGenerateTest module difficulty resp).2 = 0 ∧
    countAttempts (writingGenerateTest module difficulty resp).2 = 0 ∧
    countModelCalls (writingGenerateTest module difficulty resp).2 ≤ 1 := by
  refine ⟨?_, ?_, ?_, ?_⟩
  · unfold readingGenerateTest
    rw [if_neg (by decide)]
    conv_lhs => whnf
    rw [h1]
    conv_lhs => whnf
    rw [h2]
    rfl
  · unfold writingGenerateTest
    split
    · rfl
    · split
      · rfl
      · rfl
  · unfold writingGenerateTest
    split
    · rfl
    · split
      · rfl
      · rfl
  · unfold writingGenerateTest
    split
    · exact Nat.zero_le 1
    · split
      · exact Nat.zero_le 1
      · exact Nat.le_refl 1

set_option maxRecDepth 100000 in
set_option maxHeartbeats 4000000 in
theorem C3_retry_and_single_pass_witness :
    readingGenerateTest "7.0" c3responses =
      (.ok c3expected, [.attemptStart 1, .sleep 2, .attemptStart 2]) ∧
    countSleeps (writingGenerateTest "Academic" "7.0" (.ok "x")).2 = 0 :=
  ⟨(C3_retry_and_single_pass c3responses
      (.jsonParse "JSON Parse Error: Could not extract valid JSON from API response"
        "no json here")
      c3expected (by rfl) (by rfl) "Academic" "7.0" (.ok "x")).1,
   (C3_retry_and_single_pass c3responses
      (.jsonParse "JSON Parse Error: Could not extract valid JSON from API response"
        "no json here")
      c3expected (by rfl) (by rfl) "Academic" "7.0" (.ok "x")).2.1⟩

/-! # Claim C2 — retry exhaustion for the reading and listening
orchestrators -/

/-- C2: when every attempt of the reading (resp. listening)
orchestrator fails, exactly `MAX_RETRIES` (3) attempts are made
(separated by fixed sleeps); a validation-failure last error is raised
wrapped with one aggregated entry per attempt, and a non-validation
last error is re-raised unchanged. -/
theorem C2_retry_exhaustion
    (responses lresponses nresponses : Nat → Except PyExn String)
    (tid nowIso : String) (render : Nat → Nat → String → String)
    (e1 e2 : PyExn) (m3 : String) (d3 : SVDetails)
    (f1 f2 : PyExn) (n3 : String) (g3 : SVDetails)
    (x1 x2 x3 : PyExn)
    (h1 : readingAttempt responses 1 = .error e1)
    (h2 : readingAttempt responses 2 = .error e2)
    (h3 : readingAttempt responses 3 = .error (.schemaValidation m3 d3))
    (l1 : listeningAttempt tid nowIso lresponses render 1 = .error f1)
    (l2 : listeningAttempt tid nowIso lresponses render 2 = .error f2)
    (l3 : listeningAttempt tid nowIso lresponses render 3 =
      .error (.schemaValidation n3 g3))
    (k1 : readingAttempt nresponses 1 = .error x1)
    (k2 : readingAttempt nresponses 2 = .error x2)
    (k3 : readingAttempt nresponses 3 = .error x3)
    (kn : x3.isSchemaValidation = false) :
    readingGenerateTest "7.0" responses =
      (.error (.schemaValidation
        "Schema Validation Error: Schema validation failed after 3 attempts"
        (.aggregated
          [attemptErrorEntry 1 e1, attemptErrorEntry 2 e2,
           attemptErrorEntry 3 (.schemaValidation m3 d3)] d3.getErrors)),
       [.attemptStart 1, .sleep 2, .attemptStart 2, .sleep 2,
        .attemptStart 3]) ∧
    countAttempts [Event.attemptStart 1, Event.sleep 2, Event.attemptStart 2,
      Event.sleep 2, Event.attemptStart 3] = MAX_RETRIES ∧
    listeningGenerateTest "6.5" tid nowIso lresponses render =
      (.error (.schemaValidation
        "Schema Validation Error: Validation failed after 3 attempts"
        (.aggregated
          [attemptErrorEntry 1 f1, attemptErrorEntry 2 f2,
           attemptErrorEntry 3 (.schemaValidation n3 g3)] g3.getErrors)),
       [.attemptStart 1, .sleep 2, .attemptStart 2, .sleep 2,
        .attemptStart 3]) ∧
    readingGenerateTest "7.0" nresponses =
      (.error x3,
       [.attemptStart 1, .sleep 2, .attemptStart 2, .sleep 2,
        .attemptStart 3]) := by
  refine ⟨?_, by decide, ?_, ?_⟩
  · unfold readingGenerateTest
    rw [if_neg (by decide)]
    conv_lhs => whnf
    rw [h1]
    conv_lhs => whnf
    rw [h2]
    conv_lhs => whnf
    rw [h3]
    rfl
  · unfold listeningGenerateTest
    rw [if_neg (by decide)]
    conv_lhs => whnf
    rw [l1]
    conv_lhs => whnf
    rw [l2]
    conv_lhs => whnf
    rw [l3]
    rfl
  · unfold readingGenerateTest
    rw [if_neg (by decide)]
    conv_lhs => whnf
    rw [k1]
    conv_lhs => whnf
    rw [k2]
    conv_lhs => whnf
    rw [k3]
    cases x3 with
    | schemaValidation m d => simp [PyExn.isSchemaValidation] at kn
    | jsonParse m p => rfl
    | geminiAPI m => rfl
    | runtime t => rfl

theorem C2_retry_exhaustion_witness :
    readingGenerateTest "7.0" c2responses =
      (.error (.schemaValidation
        "Schema Validation Error: Schema validation failed after 3 attempts"
        (.aggregated
          [attemptErrorEntry 1
             (.schemaValidation "Schema Validation Error: Schema validation failed" c2rd),
           attemptErrorEntry 2
             (.schemaValidation "Schema Validation Error: Schema validation failed" c2rd),
           attemptErrorEntry 3
             (.schemaValidation "Schema Validation Error: Schema validation failed" c2rd)]
          c2rd.getErrors)),
       [.attemptStart 1, .sleep 2, .attemptStart 2, .sleep 2,
        .attemptStart 3]) ∧
    listeningGenerateTest "6.5" "tid" "now" c2lresponses (fun _ _ _ => "g") =
      (.error (.schemaValidation
        "Schema Validation Error: Validation failed after 3 attempts"
        (.aggregated
          [attemptErrorEntry 1
             (.schemaValidation "Schema Validation Error: Schema validation failed" c2lg),
           attemptErrorEntry 2
             (.schemaValidation "Schema Validation Error: Schema validation failed" c2lg),
           attemptErrorEntry 3
             (.schemaValidation "Schema Validation Error: Schema validation failed" c2lg)]
          c2lg.getErrors)),
       [.attemptStart 1, .sleep 2, .attemptStart 2, .sleep 2,
        .attemptStart 3]) ∧
    readingGenerateTest "7.0" c2nresponses =
      (.error (.geminiAPI "Gemini API Error: boom"),
       [.attemptStart 1, .sleep 2, .attemptStart 2, .sleep 2,
        .attemptStart 3]) := by
  have base := C2_retry_exhaustion c2responses c2lresponses c2nresponses "tid" "now"
    (fun _ _ _ => "g")
    (.schemaValidation "Schema Validation Error: Schema validation failed" c2rd)
    (.schemaValidation "Schema Validation Error: Schema validation failed" c2rd)
    "Schema Validation Error: Schema validation failed" c2rd
    (.schemaValidation "Schema Validation Error: Schema validation failed" c2lg)
    (.schemaValidation "Schema Validation Error: Schema validation failed" c2lg)
    "Schema Validation Error: Schema validation failed" c2lg
    (.geminiAPI "Gemini API Error: boom") (.geminiAPI "Gemini API Error: boom")
    (.geminiAPI "Gemini API Error: boom")
    (by rfl) (by rfl) (by rfl) (by rfl) (by rfl) (by rfl)
    (by rfl) (by rfl) (by rfl) (by rfl)
  exact ⟨base.1, base.2.2.1, base.2.2.2⟩

/-! # Claim C4 — reading validator and question numbering -/

set_option maxRecDepth 100000 in
set_option maxHeartbeats 4000000 in
/-- C4 is false: `ReadingTestService.validate_schema` never inspects
`question_number` values beyond their presence.  A test whose 40
questions all carry `question_number` 1 (so 1 appears 40 times and
2..40 never) is accepted. -/
theorem C4_counterexample :
    readingValidateSchema c4data = .ok true ∧
    readingQuestionNumbers c4data = List.replicate 40 (.num 1 false) :=
  ⟨rfl, rfl⟩

/-- C4 (amended): what the validator does guarantee on acceptance:
exactly 3 passages, the per-passage question counts sum to 40, and the
answer key has exactly 40 entries.  Per-question uniqueness or range of
`question_number` is not among the checks (see the counterexample). -/
theorem C4_accepted_structure (data : JValue)
    (h : readingValidateSchema data = .ok true) :
    ∃ passages ps epass totalQ answerKey,
      pyGetAttr data "passages" (.arr []) = .ok passages ∧
      pyLen passages = .ok 3 ∧
      pyIter passages = .ok ps ∧
      readingPassagesFold 1 ps = .ok (epass, totalQ) ∧ totalQ = 40 ∧
      pyGetAttr data "answer_key" (.obj []) = .ok answerKey ∧
      pyLen answerKey = .ok 40 := by
  unfold readingValidateSchema at h
  obtain ⟨errors, herr, h⟩ := except_bind_ok.mp h
  dsimp only at h
  split at h
  · cases h
  · rename_i hcond
    have he : errors = [] := by
      revert hcond; cases errors <;> simp
    subst he
    unfold readingSchemaErrors at herr
    obtain ⟨keys, h1, herr⟩ := except_bind_ok.mp herr
    try dsimp only at herr
    obtain ⟨tt, h2, herr⟩ := except_bind_ok.mp herr
    try dsimp only at herr
    obtain ⟨tq, h3, herr⟩ := except_bind_ok.mp herr
    try dsimp only at herr
    obtain ⟨td, h4, herr⟩ := except_bind_ok.mp herr
    try dsimp only at herr
    obtain ⟨passages, h5, herr⟩ := except_bind_ok.mp herr
    try dsimp only at herr
    obtain ⟨nPassages, h6, herr⟩ := except_bind_ok.mp herr
    try dsimp only at herr
    obtain ⟨ps, h7, herr⟩ := except_bind_ok.mp herr
    try dsimp only at herr
    obtain ⟨pr, h8, herr⟩ := except_bind_ok.mp herr
    obtain ⟨epass, totalQ⟩ := pr
    try dsimp only at herr
    obtain ⟨metadata, h9, herr⟩ := except_bind_ok.mp herr
    try dsimp only at herr
    obtain ⟨sv, h10, herr⟩ := except_bind_ok.mp herr
    try dsimp only at herr
    obtain ⟨db, h11, herr⟩ := except_bind_ok.mp herr
    try dsimp only at herr
    obtain ⟨topicsOk, h12, herr⟩ := except_bind_ok.mp herr
    try dsimp only at herr
    obtain ⟨answerKey, h13, herr⟩ := except_bind_ok.mp herr
    try dsimp only at herr
    obtain ⟨nKey, h14, herr⟩ := except_bind_ok.mp herr
    try dsimp only at herr
    injection herr with hx
    simp only [List.append_eq_nil] at hx
    obtain ⟨⟨⟨⟨⟨⟨⟨⟨⟨⟨hm, ht⟩, htq⟩, htd⟩, hc⟩, hep⟩, htot⟩, hsv⟩,
      hdb⟩, htop⟩, hkey⟩ := hx
    have hc3 : nPassages = 3 := by
      by_contra hne
      rw [if_pos (by simp [bne_iff_ne, hne])] at hc
      cases hc
    have ht40 : totalQ = 40 := by
      by_contra hne
      rw [if_pos (by simp [bne_iff_ne, hne])] at htot
      cases htot
    have hk40 : nKey = 40 := by
      by_contra hne
      rw [if_pos (by simp [bne_iff_ne, hne])] at hkey
      cases hkey
    subst hc3; subst ht40; subst hk40
    exact ⟨passages, ps, epass, 40, answerKey, h5, h6, h7, h8, rfl, h13, h14⟩

set_option maxRecDepth 100000 in
set_option maxHeartbeats 4000000 in
theorem C4_accepted_structure_witness :
    ∃ passages ps epass totalQ answerKey,
      pyGetAttr c4data "passages" (.arr []) = .ok passages ∧
      pyLen passages = .ok 3 ∧
      pyIter passages = .ok ps ∧
      readingPassagesFold 1 ps = .ok (epass, totalQ) ∧ totalQ = 40 ∧
      pyGetAttr c4data "answer_key" (.obj []) = .ok answerKey ∧
      pyLen answerKey = .ok 40 :=
  C4_accepted_structure c4data (by rfl)


/-! # Claim C6 — answer-key consistency -/

set_option maxRecDepth 100000 in
set_option maxHeartbeats 4000000 in
/-- C6 is false for the reading orchestrator: when the model-supplied
`answer_key` already has 40 entries, `_fix_common_issues` passes it
through without rebuilding it from the questions.  Here the returned
test maps "1" to "X" in its answer key while every question (each with
stringified `question_number` "1") carries answer "A". -/
theorem C6_counterexample :
    readingGenerateTest "7.0" (fun _ => .ok readingResponse) =
      (.ok c6test, [.attemptStart 1]) ∧
    jGet (jGetD c6test "answer_key" .null) "1" = some (.str "X") ∧
    readingQuestionNumbers c6test = List.replicate 40 (.num 1 false) ∧
    readingQuestionAnswers c6test = List.replicate 40 (.str "A") ∧
    pyStr (.num 1 false) = "1" ∧
    (JValue.str "X") ≠ (.str "A") :=
  ⟨rfl, rfl, rfl, rfl, rfl, by simp⟩

/-- C6 (amended, listening): every test returned by a successful
listening attempt carries an `answer_key` equal to
`_build_answer_key` applied to the test's own sections — derived, not
model-authored.  (The reading key is only rebuilt when the supplied one
has fewer than 40 entries; see the counterexample.) -/
theorem C6_listening_key_derived
    (tid nowIso : String) (responses : Nat → Except PyExn String)
    (render : Nat → Nat → String → String) (k : Nat) (t : JValue)
    (h : listeningAttempt tid nowIso responses render k = .ok t) :
    ∃ key, jGet t "answer_key" = some key ∧
      buildAnswerKey (jGetD t "sections" (.arr [])) = .ok key := by
  unfold listeningAttempt at h
  obtain ⟨rt, b1, h⟩ := except_bind_ok.mp h
  try dsimp only at h
  obtain ⟨parsed, b2, h⟩ := except_bind_ok.mp h
  try dsimp only at h
  obtain ⟨fixed, b3, h⟩ := except_bind_ok.mp h
  try dsimp only at h
  obtain ⟨okv, b4, h⟩ := except_bind_ok.mp h
  try dsimp only at h
  obtain ⟨blocks, b5, h⟩ := except_bind_ok.mp h
  try dsimp only at h
  obtain ⟨withBlocks, b6, h⟩ := except_bind_ok.mp h
  try dsimp only at h
  obtain ⟨key, b7, h⟩ := except_bind_ok.mp h
  try dsimp only at h
  obtain ⟨es, hwb, ht⟩ := pySetItem_ok h
  obtain ⟨fs, hfx, hwb'⟩ := pySetItem_ok b6
  subst ht
  have hes : es = dictSet fs "audio_blocks"
      (.arr (renderAudioBlocks blocks tid (render k))) := by
    have := hwb ▸ hwb'
    exact JValue.obj.inj this
  refine ⟨key, ?_, ?_⟩
  · simp [jGet, dictGet_dictSet_self]
  · have hsec : jGetD (JValue.obj (dictSet es "answer_key" key))
        "sections" (.arr []) = jGetD fixed "sections" (.arr []) := by
      subst hes
      rw [hfx]
      simp only [jGetD, dictGetD,
        dictGet_dictSet_ne _ _ _ _ (by decide : "sections" ≠ "answer_key"),
        dictGet_dictSet_ne _ _ _ _ (by decide : "sections" ≠ "audio_blocks")]
    rw [hsec]
    exact b7

set_option maxRecDepth 100000 in
set_option maxHeartbeats 4000000 in
theorem C6_listening_key_derived_witness :
    ∃ key, jGet c6lt "answer_key" = some key ∧
      buildAnswerKey (jGetD c6lt "sections" (.arr [])) = .ok key :=
  C6_listening_key_derived "tid" "now" c6lresponses (fun _ _ _ => "generated") 1 c6lt (by rfl)

/-! # Claim C1 — listening sections, audio blocks and the fixed range
table -/

theorem blockTriple_mk (q : List (JValue × JValue))
    (hv : List (JValue × (String × String))) (bdef : BlockRange) :
    blockTriple (mkAudioBlock q hv bdef) =
      (.num bdef.block false, .num bdef.sectionNum false,
       .num bdef.qStart false, .num bdef.qEnd false) := rfl

theorem jGetD_jSet_ne (v : JValue) (k k' : String) (x d : JValue)
    (h : k' ≠ k) : jGetD (jSet v k x) k' d = jGetD v k' d := by
  cases v <;> simp [jSet, jGetD, dictGetD, dictGet_dictSet_ne _ _ _ _ h]

theorem map_blockTriple_render (blocks : List JValue) (tid : String)
    (render : Nat → String → String) :
    (renderAudioBlocks blocks tid render).map blockTriple =
      blocks.map blockTriple := by
  unfold renderAudioBlocks
  rw [List.mapIdx_eq_enum_map, List.map_map]
  conv_rhs => rw [show blocks = blocks.enum.map Prod.snd from
    (List.enum_map_snd blocks).symm]
  rw [List.map_map]
  refine List.map_congr_left ?_
  intro a ha
  obtain ⟨idx, block⟩ := a
  simp only [Function.comp, Function.uncurry]
  split
  · rfl
  · unfold blockTriple
    rw [jGetD_jSet_ne _ _ _ _ _ (by decide),
        jGetD_jSet_ne _ _ _ _ _ (by decide),
        jGetD_jSet_ne _ _ _ _ _ (by decide)]

theorem retryLoopGo_ok (att : Nat → Except PyExn JValue)
    (maxR delay : Nat) (msg : String) :
    ∀ fuel k le ae evs v evs',
      retryLoopGo att maxR delay msg fuel k le ae evs = (.ok v, evs') →
      ∃ n, att n = .ok v := by
  intro fuel
  induction fuel with
  | zero =>
    intro k le ae evs v evs' h
    unfold retryLoopGo at h
    cases h
  | succ m ih =>
    intro k le ae evs v evs' h
    unfold retryLoopGo at h
    dsimp only at h
    split at h
    · rename_i w hw
      cases h
      exact ⟨k, hw⟩
    · exact ih _ _ _ _ _ _ h

theorem buildAudioBlocks_ok (sections : JValue) (blocks : List JValue)
    (h : buildAudioBlocks sections = .ok blocks) :
    ∃ q hv, blocks = AUDIO_BLOCK_RANGES.map (mkAudioBlock q hv) := by
  unfold buildAudioBlocks at h
  obtain ⟨secList, b1, h⟩ := except_bind_ok.mp h
  try dsimp only at h
  obtain ⟨qByNum, b2, h⟩ := except_bind_ok.mp h
  try dsimp only at h
  obtain ⟨halves, b3, h⟩ := except_bind_ok.mp h
  try dsimp only at h
  injection h with h'
  exact ⟨_, _, h'.symm⟩

theorem listeningValidateSchema_sections (data : JValue) (b : Bool)
    (h : listeningValidateSchema data = .ok b) :
    ∃ secs, pyGetAttr data "sections" (.arr []) = .ok secs ∧
      pyLen secs = .ok 4 := by
  unfold listeningValidateSchema at h
  obtain ⟨errors, herr, h⟩ := except_bind_ok.mp h
  try dsimp only at h
  split at h
  · cases h
  · rename_i hcond
    have he : errors = [] := by
      revert hcond; cases errors <;> simp
    subst he
    unfold listeningSchemaErrors at herr
    obtain ⟨eMissing, g1, herr⟩ := except_bind_ok.mp herr
    try dsimp only at herr
    obtain ⟨tq, g2, herr⟩ := except_bind_ok.mp herr
    try dsimp only at herr
    obtain ⟨sections, g3, herr⟩ := except_bind_ok.mp herr
    try dsimp only at herr
    obtain ⟨nSections, g4, herr⟩ := except_bind_ok.mp herr
    try dsimp only at herr
    obtain ⟨secIter, g5, herr⟩ := except_bind_ok.mp herr
    try dsimp only at herr
    obtain ⟨pr, g6, herr⟩ := except_bind_ok.mp herr
    obtain ⟨eSections, totalQ⟩ := pr
    try dsimp only at herr
    obtain ⟨meta, g7, herr⟩ := except_bind_ok.mp herr
    try dsimp only at herr
    obtain ⟨sv, g8, herr⟩ := except_bind_ok.mp herr
    try dsimp only at herr
    obtain ⟨db, g9, herr⟩ := except_bind_ok.mp herr
    try dsimp only at herr
    injection herr with hx
    simp only [List.append_eq_nil] at hx
    obtain ⟨⟨⟨⟨⟨⟨hm, htq⟩, hc⟩, hsec⟩, htot⟩, hsv⟩, hdb⟩ := hx
    have hc4 : nSections = 4 := by
      by_contra hne
      rw [if_pos (by simp [bne_iff_ne, hne])] at hc
      cases hc
    subst hc4
    exact ⟨sections, g3, g4⟩

/-- C1: every test returned by `ListeningTestService.generate_test` has
exactly 4 sections and exactly 8 audio blocks; the blocks' (block,
section, q_start, q_end) fields equal the fixed `AUDIO_BLOCK_RANGES`
table, whose ranges partition 1..40 with no gap or overlap, two blocks
per section. -/
theorem C1_blocks_partition (difficulty tid nowIso : String)
    (responses : Nat → Except PyExn String)
    (render : Nat → Nat → String → String) (t : JValue) (evs : List Event)
    (h : listeningGenerateTest difficulty tid nowIso responses render =
      (.ok t, evs)) :
    pyLen (jGetD t "sections" (.arr [])) = .ok 4 ∧
    (∃ blocks, jGet t "audio_blocks" = some (.arr blocks) ∧
      blocks.length = 8 ∧
      blocks.map blockTriple = AUDIO_BLOCK_RANGES.map (fun b =>
        (JValue.num b.block false, JValue.num b.sectionNum false,
         JValue.num b.qStart false, JValue.num b.qEnd false))) ∧
    ((List.range 40).all fun i =>
      (AUDIO_BLOCK_RANGES.filter fun b =>
        decide (b.qStart ≤ i + 1) && decide (i + 1 ≤ b.qEnd)).length == 1)
      = true ∧
    ((List.range 4).all fun s =>
      (AUDIO_BLOCK_RANGES.filter fun b => b.sectionNum == s + 1).length == 2)
      = true := by
  unfold listeningGenerateTest at h
  split at h
  · injection h with h1 h2
    cases h1
  · unfold retryLoop at h
    obtain ⟨n, hatt⟩ := retryLoopGo_ok _ _ _ _ _ _ _ _ _ _ _ h
    unfold listeningAttempt at hatt
    obtain ⟨rt, b1, hatt⟩ := except_bind_ok.mp hatt
    try dsimp only at hatt
    obtain ⟨parsed, b2, hatt⟩ := except_bind_ok.mp hatt
    try dsimp only at hatt
    obtain ⟨fixed, b3, hatt⟩ := except_bind_ok.mp hatt
    try dsimp only at hatt
    obtain ⟨okv, b4, hatt⟩ := except_bind_ok.mp hatt
    try dsimp only at hatt
    obtain ⟨blocks, b5, hatt⟩ := except_bind_ok.mp hatt
    try dsimp only at hatt
    obtain ⟨withBlocks, b6, hatt⟩ := except_bind_ok.mp hatt
    try dsimp only at hatt
    obtain ⟨key, b7, hatt⟩ := except_bind_ok.mp hatt
    try dsimp only at hatt
    obtain ⟨es, hwb, ht⟩ := pySetItem_ok hatt
    obtain ⟨fs, hfx, hwb'⟩ := pySetItem_ok b6
    subst ht
    have hes : es = dictSet fs "audio_blocks"
        (.arr (renderAudioBlocks blocks tid (render n))) := by
      have := hwb ▸ hwb'
      exact JValue.obj.inj this
    obtain ⟨secs, hsecs, hlen4⟩ := listeningValidateSchema_sections fixed okv b4
    rw [hfx] at hsecs
    have hsecs' : secs = dictGetD fs "sections" (.arr []) := by
      injection hsecs with h'
      exact h'.symm
    have hsections : jGetD (JValue.obj (dictSet es "answer_key" key))
        "sections" (.arr []) = dictGetD fs "sections" (.arr []) := by
      subst hes
      simp only [jGetD, dictGetD,
        dictGet_dictSet_ne _ _ _ _ (by decide : "sections" ≠ "answer_key"),
        dictGet_dictSet_ne _ _ _ _ (by decide : "sections" ≠ "audio_blocks")]
    refine ⟨?_, ?_, by decide, by decide⟩
    · rw [hsections, ← hsecs', hlen4]
    · obtain ⟨q, hv, hblocks⟩ := buildAudioBlocks_ok _ _ b5
      refine ⟨renderAudioBlocks blocks tid (render n), ?_, ?_, ?_⟩
      · subst hes
        simp only [jGet,
          dictGet_dictSet_ne _ _ _ _
            (by decide : "audio_blocks" ≠ "answer_key"),
          dictGet_dictSet_self]
      · have hmap := map_blockTriple_render blocks tid (render n)
        have : (renderAudioBlocks blocks tid (render n)).length =
            (blocks.map blockTriple).length := by
          rw [← hmap, List.length_map]
        rw [this, hblocks]
        rfl
      · rw [map_blockTriple_render, hblocks]
        rfl

set_option maxRecDepth 100000 in
set_option maxHeartbeats 4000000 in
theorem C1_blocks_partition_witness :
    pyLen (jGetD c1t "sections" (.arr [])) = .ok 4 ∧
    (∃ blocks, jGet c1t "audio_blocks" = some (.arr blocks) ∧
      blocks.length = 8 ∧
      blocks.map blockTriple = AUDIO_BLOCK_RANGES.map (fun b =>
        (JValue.num b.block false, JValue.num b.sectionNum false,
         JValue.num b.qStart false, JValue.num b.qEnd false))) ∧
    ((List.range 40).all fun i =>
      (AUDIO_BLOCK_RANGES.filter fun b =>
        decide (b.qStart ≤ i + 1) && decide (i + 1 ≤ b.qEnd)).length == 1)
      = true ∧
    ((List.range 4).all fun s =>
      (AUDIO_BLOCK_RANGES.filter fun b => b.sectionNum == s + 1).length == 2)
      = true :=
  C1_blocks_partition "6.5" "tid" "now" c6lresponses (fun _ _ _ => "generated")
    c1t [.attemptStart 1] (by rfl)


end AnyExam

